import Mathlib

/-!
# Verification of the BTi/4D MagnesWH3600 binary-format reader

Shallow embedding of the decoder in `mne/fiff/bti/raw.py` (with the byte
offsets and tags of `mne/fiff/bti/constants.py`), and proofs about it.

Conventions used throughout:

* Machine integers read from files are modelled as `Int` (Python's integers
  are unbounded; the primitive readers produce values already reduced to the
  declared width).  Floating-point values are modelled as `Rat`; the claims
  settled here depend only on the structure of the arithmetic, not on
  rounding.
* Exceptions are modelled by `Except BtiError`.  `BtiError.formatError`
  stands for the `RuntimeError` / `ValueError` values the reader raises
  explicitly (the specification's error taxonomy calls this class
  `FormatError`); `BtiError.crash` stands for a Python-level crash that is
  not an explicitly raised reader error (for instance a `NameError` from an
  uninitialised local variable, or a numpy shape error).
* Functions named after the Python source (`_rename_channels`,
  `setup_head_shape`, …) are translated from `raw.py`; helper definitions
  marked `Modelled from the spec:` stand in for repository code that is not
  part of the reviewed sources (the primitive readers of `read.py`).
-/
set_option maxRecDepth 4000

namespace Bti

/-- Error model: `formatError` is an explicitly raised reader error
(`RuntimeError`/`ValueError`, the spec's `FormatError` class); `crash` is an
unhandled Python-level failure such as a `NameError`. -/
inductive BtiError where
  | formatError
  | crash
  deriving DecidableEq, Repr

deriving instance DecidableEq for Except

/-- Python `str.startswith`, on the character lists underlying the strings. -/
def strStartsWith (s p : String) : Bool :=
  p.data.isPrefixOf s.data

/-- Python `'%3.3d' % n`: decimal digits, left-padded with zeros to width 3. -/
def pad3 (n : Nat) : String :=
  let s := toString n
  if s.length < 3 then String.mk (List.replicate (3 - s.length) '0') ++ s else s

/-!
## Channel renaming (`_rename_channels`, raw.py lines 61-98)

The source walks the name list with `enumerate(names, 1)` and four running
counters created by `count(1)`; the position index is threaded as `i`
(starting at 1) and the counters as the number of times each branch has
fired so far (so the branch emits `counter + 1`).
-/
def renameLoop : Nat → Nat → Nat → Nat → Nat → List String → List String
  | _, _, _, _, _, [] => []
  | i, eog, refMag, refGrad, ext, n :: ns =>
    if strStartsWith n "A" then
      ("MEG " ++ pad3 i) :: renameLoop (i + 1) eog refMag refGrad ext ns
    else if n = "RESPONSE" then
      "SRI 013" :: renameLoop (i + 1) eog refMag refGrad ext ns
    else if n = "TRIGGER" then
      "STI 014" :: renameLoop (i + 1) eog refMag refGrad ext ns
    else if strStartsWith n "EOG" then
      ("EOG " ++ pad3 (eog + 1)) :: renameLoop (i + 1) (eog + 1) refMag refGrad ext ns
    else if n = "ECG" then
      "ECG 001" :: renameLoop (i + 1) eog refMag refGrad ext ns
    else if n = "UACurrent" then
      "UTL 001" :: renameLoop (i + 1) eog refMag refGrad ext ns
    else if strStartsWith n "M" then
      ("RFM " ++ pad3 (refMag + 1)) :: renameLoop (i + 1) eog (refMag + 1) refGrad ext ns
    else if strStartsWith n "G" then
      ("RFG " ++ pad3 (refGrad + 1)) :: renameLoop (i + 1) eog refMag (refGrad + 1) ext ns
    else if strStartsWith n "X" then
      ("EXT " ++ pad3 (ext + 1)) :: renameLoop (i + 1) eog refMag refGrad (ext + 1) ns
    else
      n :: renameLoop (i + 1) eog refMag refGrad ext ns

/-- `_rename_channels(names)`: position index starts at 1, all counters yield
1 on their first use. -/
def _rename_channels (names : List String) : List String :=
  renameLoop 1 0 0 0 0 names

/-- The value a single loop iteration emits, given the 1-based position `i` and
the number of times each counter has fired before this iteration. -/
def renameOne (i eog refMag refGrad ext : Nat) (n : String) : String :=
  if strStartsWith n "A" then "MEG " ++ pad3 i
  else if n = "RESPONSE" then "SRI 013"
  else if n = "TRIGGER" then "STI 014"
  else if strStartsWith n "EOG" then "EOG " ++ pad3 (eog + 1)
  else if n = "ECG" then "ECG 001"
  else if n = "UACurrent" then "UTL 001"
  else if strStartsWith n "M" then "RFM " ++ pad3 (refMag + 1)
  else if strStartsWith n "G" then "RFG " ++ pad3 (refGrad + 1)
  else if strStartsWith n "X" then "EXT " ++ pad3 (ext + 1)
  else n

/-- Bool predicate for the `EOG`-counter branch. -/
def eogPred (n : String) : Bool := strStartsWith n "EOG"

/-- Bool predicate for the reference-magnetometer (`M`) counter branch. -/
def mPred (n : String) : Bool := strStartsWith n "M"

/-- Bool predicate for the reference-gradiometer (`G`) counter branch. -/
def gPred (n : String) : Bool := strStartsWith n "G"

/-- Bool predicate for the external (`X`) counter branch. -/
def xPred (n : String) : Bool := strStartsWith n "X"

/-!
## PDF header location (`_read_bti_header`, raw.py lines 732-743)

The file is opened and the position `BTI.FILE_END = -8` relative to the end
is sought, so `start = file_size - 8`; a signed 64-bit `header_position` is
read there.  The design note of the specification asks for this step as a
pure function of `(start, header_position)`, which is what is embedded here.
`header_position & BTI.FILE_MASK` with `FILE_MASK = 0x7FFFFFFF` is, on
Python's unbounded two's-complement integers, reduction mod `2^31`.

If the bound check `start + 8 - check_value <= FILE_MASK` fails, the local
`hdr_pos` is never assigned and the subsequent `hdr_pos % 8` raises
`NameError` — modelled as `BtiError.crash`.  No branch of this function
raises a reader `FormatError`, and no bound on the file size is ever applied
to the accepted offset.
-/
/-- `BTI.FILE_MASK` (constants.py line 23). -/
def FILE_MASK : Int := 2147483647

/-- `BTI.FILE_CURPOS` (constants.py line 24): the 8-byte alignment unit. -/
def FILE_CURPOS : Int := 8

/-- Header-offset computation of `_read_bti_header` as a pure function of
`start = file_size - 8` and the raw 64-bit trailer value. -/
def computeHeaderPos (start header_position : Int) : Except BtiError Int :=
  let check_value := header_position % (2 ^ 31)
  if start + FILE_CURPOS - check_value ≤ FILE_MASK then
    let hdr_pos := check_value
    .ok (if hdr_pos % FILE_CURPOS ≠ 0 then hdr_pos + (FILE_CURPOS - hdr_pos % FILE_CURPOS)
         else hdr_pos)
  else
    .error .crash

/-!
## Filter band from the E-table filter name (`Raw.__init__`, raw.py lines 974-983)

```
filtname = bti_info['e_table']['hdr']['filtername']
low, high = 0, 600
if filtname:
    filtname = filtname.split(',')
    if len(filtname) < 2:
        low = float(filtname[0])
    else:
        low, high = np.array(filtname, dtype='f8')
```

`float()` / the numpy parse raise `ValueError` on a non-numeric token, and
unpacking more than two tokens raises `ValueError`; both are modelled as
`formatError`.  The float parser below is modelled from the spec ("parsed as
comma-separated low/high cutoff floats"): plain signed decimal notation.
-/
/-- Python `str.split(',')` on the underlying character list (empty pieces
are preserved). -/
def splitOnComma : List Char → List (List Char)
  | [] => [[]]
  | c :: rest =>
    if c = ',' then [] :: splitOnComma rest
    else
      match splitOnComma rest with
      | h :: t => (c :: h) :: t
      | [] => [[c]]

/-- Decimal digit value of a character, if it is a digit. -/
def digitVal (c : Char) : Option Nat :=
  if '0' ≤ c ∧ c ≤ '9' then some (c.toNat - 48) else none

/-- Value of a digit string (most significant first). -/
def natOfDigits (ds : List Char) : Nat :=
  ds.foldl (fun a c => a * 10 + (c.toNat - 48)) 0

/-- Modelled from the spec: Python `float()` on a cutoff token, for the plain
signed decimal notation `[-]digits[.digits]` the filter-name strings use;
`none` models the `ValueError` raised on a non-numeric token. -/
def parseFloatQ (cs : List Char) : Option Rat :=
  let unsigned := fun (ds : List Char) =>
    let ip := ds.takeWhile fun c => (digitVal c).isSome
    let rest := ds.dropWhile fun c => (digitVal c).isSome
    match rest with
    | [] => if ip = [] then none else some ((natOfDigits ip : Rat))
    | '.' :: fp =>
      if fp.all (fun c => (digitVal c).isSome) ∧ (ip ≠ [] ∨ fp ≠ []) then
        some ((natOfDigits ip : Rat) + (natOfDigits fp : Rat) / (10 : Rat) ^ fp.length)
      else none
    | _ => none
  match cs with
  | '-' :: rest => (unsigned rest).map Neg.neg
  | '+' :: rest => unsigned rest
  | _ => unsigned cs

/-- The filter-band computation of `Raw.__init__`: default `(0, 600)`,
overridden from the comma-separated filter-name string when present. -/
def parseFilterBand (filtname : String) : Except BtiError (Rat × Rat) :=
  if filtname.data = [] then .ok (0, 600)
  else
    let parts := splitOnComma filtname.data
    if parts.length < 2 then
      match parseFloatQ (parts.getD 0 []) with
      | some l => .ok (l, 600)
      | none => .error .formatError
    else if parts.length = 2 then
      match parseFloatQ (parts.getD 0 []), parseFloatQ (parts.getD 1 []) with
      | some l, some h => .ok (l, h)
      | _, _ => .error .formatError
    else .error .formatError

/-!
## Byte streams and the primitive readers

`raw.py` imports its primitive readers (`read_int16`, `read_str`,
`read_double_matrix`, …) from `mne.fiff.bti.read`, which is not among the
reviewed sources.  They are modelled from the spec (§4.1 Binary Primitive
Reader): typed scalar and row-major matrix readers over a seekable byte
stream that advance the position and fail with `FormatError` when the
requested byte count exceeds the remaining stream length; fixed-length
string reads strip at the first NUL byte; all skips are explicit relative
seeks.  IEEE-754 payload decoding is abstracted: `decodeFloat`/`decodeDouble`
consume the declared byte count but the claims never inspect the decoded
values.
-/
/-- A seekable byte stream: the file contents and the current position. -/
structure ByteStream where
  data : List Int
  pos : Nat
  deriving DecidableEq, Repr

/-- `fid.read(n)`: consume `n` bytes.  Modelled from the spec: fails with
`FormatError` when fewer than `n` bytes remain. -/
def ByteStream.readBytes (s : ByteStream) (n : Nat) : Except BtiError (List Int × ByteStream) :=
  if s.pos + n ≤ s.data.length then
    .ok ((s.data.drop s.pos).take n, { s with pos := s.pos + n })
  else
    .error .formatError

/-- `fid.seek(n, 1)`: relative seek. -/
def ByteStream.seekRel (s : ByteStream) (n : Int) : ByteStream :=
  { s with pos := ((s.pos : Int) + n).toNat }

/-- `fid.seek(n)`: absolute seek. -/
def ByteStream.seekAbs (s : ByteStream) (n : Nat) : ByteStream :=
  { s with pos := n }

/-- `_correct_offset(fid)` (raw.py lines 207-212): advance to the next
multiple of `BTI.FILE_CURPOS = 8` when not already aligned. -/
def correct_offset (s : ByteStream) : ByteStream :=
  if s.pos % 8 ≠ 0 then { s with pos := s.pos + (8 - s.pos % 8) } else s

/-- Big-endian unsigned value of a byte list. -/
def beNat (bs : List Int) : Int :=
  bs.foldl (fun a b => a * 256 + b) 0

/-- Reinterpret an unsigned `w`-bit value as two's-complement signed. -/
def toSigned (w : Nat) (v : Int) : Int :=
  if v ≥ 2 ^ (w - 1) then v - 2 ^ w else v

/-- Modelled from the spec: big-endian signed 16-bit scalar reader. -/
def read_int16 (s : ByteStream) : Except BtiError (Int × ByteStream) := do
  let (bs, s2) ← s.readBytes 2
  .ok (toSigned 16 (beNat bs), s2)

/-- Modelled from the spec: big-endian unsigned 16-bit scalar reader. -/
def read_uint16 (s : ByteStream) : Except BtiError (Int × ByteStream) := do
  let (bs, s2) ← s.readBytes 2
  .ok (beNat bs, s2)

/-- Modelled from the spec: big-endian signed 32-bit scalar reader. -/
def read_int32 (s : ByteStream) : Except BtiError (Int × ByteStream) := do
  let (bs, s2) ← s.readBytes 4
  .ok (toSigned 32 (beNat bs), s2)

/-- Modelled from the spec: big-endian unsigned 32-bit scalar reader. -/
def read_uint32 (s : ByteStream) : Except BtiError (Int × ByteStream) := do
  let (bs, s2) ← s.readBytes 4
  .ok (beNat bs, s2)

/-- Modelled from the spec: big-endian signed 64-bit scalar reader. -/
def read_int64 (s : ByteStream) : Except BtiError (Int × ByteStream) := do
  let (bs, s2) ← s.readBytes 8
  .ok (toSigned 64 (beNat bs), s2)

/-- Modelled from the spec: IEEE-754 single-precision payload decoding,
abstracted (the claims never inspect decoded floating-point values). -/
def decodeFloat (_ : List Int) : Rat := 0

/-- Modelled from the spec: IEEE-754 double-precision payload decoding,
abstracted (the claims never inspect decoded floating-point values). -/
def decodeDouble (_ : List Int) : Rat := 0

/-- Modelled from the spec: 4-byte float reader. -/
def read_float (s : ByteStream) : Except BtiError (Rat × ByteStream) := do
  let (bs, s2) ← s.readBytes 4
  .ok (decodeFloat bs, s2)

/-- Modelled from the spec: 8-byte double reader. -/
def read_double (s : ByteStream) : Except BtiError (Rat × ByteStream) := do
  let (bs, s2) ← s.readBytes 8
  .ok (decodeDouble bs, s2)

/-- Modelled from the spec: fixed-length string reader; decodes the bytes
before the first NUL as characters (null/pad stripping). -/
def read_str (s : ByteStream) (n : Nat) : Except BtiError (String × ByteStream) := do
  let (bs, s2) ← s.readBytes n
  .ok (String.mk ((bs.takeWhile (· ≠ 0)).map (fun b => Char.ofNat b.toNat)), s2)

/-- Modelled from the spec: raw fixed-length byte reader (`read_char`). -/
def read_char (s : ByteStream) (n : Nat) : Except BtiError (List Int × ByteStream) :=
  s.readBytes n

/-- Modelled from the spec: row-major `r × c` double matrix reader. -/
def read_double_matrix (s : ByteStream) (r c : Nat) :
    Except BtiError (List (List Rat) × ByteStream) := do
  let (bs, s2) ← s.readBytes (r * c * 8)
  .ok ((List.range r).map (fun i =>
    (List.range c).map (fun j => decodeDouble ((bs.drop ((i * c + j) * 8)).take 8))), s2)

/-- Modelled from the spec: row-major `r × c` single-precision matrix reader. -/
def read_float_matrix (s : ByteStream) (r c : Nat) :
    Except BtiError (List (List Rat) × ByteStream) := do
  let (bs, s2) ← s.readBytes (r * c * 4)
  .ok ((List.range r).map (fun i =>
    (List.range c).map (fun j => decodeFloat ((bs.drop ((i * c + j) * 4)).take 4))), s2)

/-- Modelled from the spec: row-major `r × c` int16 matrix reader. -/
def read_int16_matrix (s : ByteStream) (r c : Nat) :
    Except BtiError (List (List Int) × ByteStream) := do
  let (bs, s2) ← s.readBytes (r * c * 2)
  .ok ((List.range r).map (fun i =>
    (List.range c).map (fun j => toSigned 16 (beNat ((bs.drop ((i * c + j) * 2)).take 2)))), s2)

/-- Modelled from the spec: 4 × 4 transform matrix reader (double precision). -/
def read_transform (s : ByteStream) : Except BtiError (List (List Rat) × ByteStream) :=
  read_double_matrix s 4 4

/-!
## Head-shape file (`_read_head_shape` / `setup_head_shape`, raw.py lines 104-154)

`_read_head_shape` seeks to byte offset `BTI.FILE_HS_N_DIGPOINTS = 12`,
reads the stored digitization-point count, then reads a FIXED
`BTI.DATA_N_IDX_POINTS = 5` index points followed by the stored number of
digitization points.  The stored index-point count field
(`BTI.FILE_HS_N_INDEXPOINTS = 16`) is never consulted.
-/
/-- `BTI.FILE_HS_N_DIGPOINTS` (constants.py line 30). -/
def FILE_HS_N_DIGPOINTS : Nat := 12

/-- `BTI.DATA_N_IDX_POINTS` (constants.py line 64). -/
def DATA_N_IDX_POINTS : Nat := 5

/-- Modelled from the spec: `FIFF.FIFFV_COORD_HEAD` (the `mne.fiff` constant
module is not among the reviewed sources; the value never matters to the
claims). -/
def FIFFV_COORD_HEAD : Int := 4

/-- Digitization point kinds (`FIFF.FIFFV_POINT_CARDINAL` / `_HPI` /
`_EXTRA`), modelled as an inductive since the FIFF constant module is not
among the reviewed sources. -/
inductive PointKind where
  | cardinal
  | hpi
  | extra
  deriving DecidableEq, Repr

/-- The value stored in a dig point's `r` field: normally a 3-vector, but
`convert_coord_frame` assigns a whole matrix to it (see C6). -/
inductive RVal where
  | vec (v : List Rat)
  | mat (m : List (List Rat))
  deriving DecidableEq, Repr

/-- One entry of `info['dig']` (fields `FIFF_INFO_DIG_FIELDS`, defaults
`FIFF_INFO_DIG_DEFAULTS`: kind and ident start out unset, the coordinate
frame defaults to head). -/
structure DigPoint where
  kind : Option PointKind
  ident : Option Int
  r : RVal
  coord_frame : Int
  deriving DecidableEq, Repr

/-- `_read_head_shape(fname)`: returns `(idx_points, dig_points)`. -/
def _read_head_shape (s : ByteStream) :
    Except BtiError (List (List Rat) × List (List Rat)) := do
  let s := s.seekAbs FILE_HS_N_DIGPOINTS
  let (nDigPoints, s) ← read_int32 s
  let (idxPoints, s) ← read_double_matrix s DATA_N_IDX_POINTS 3
  let (digPoints, _) ← read_double_matrix s nDigPoints.toNat 3
  .ok (idxPoints, digPoints)

/-- Python `range(a, b)` as a list of integers. -/
def pyRange (a b : Int) : List Int :=
  (List.range (b - a).toNat).map (fun k => a + k)

/-- The point-building loop of `setup_head_shape`: `idx` is the loop index,
`nIdx` is `len(idx_points)` and `fidIdents` is `fiducials_idents`.  Points
with `2 < idx < nIdx` are HPI candidates: kept with kind HPI when `use_hpi`,
silently dropped otherwise. -/
def setupLoop (useHpi : Bool) (nIdx : Nat) (fidIdents : List Int) :
    Nat → List (List Rat) → List DigPoint
  | _, [] => []
  | idx, r :: rest =>
    let p0 : DigPoint :=
      { kind := none, ident := none, r := .vec r, coord_frame := FIFFV_COORD_HEAD }
    let p1 :=
      if idx < 3 then
        { p0 with kind := some .cardinal, ident := some (fidIdents.getD idx 0) }
      else p0
    let p2 :=
      if 2 < idx ∧ idx < nIdx ∧ useHpi = true then
        { p1 with kind := some .hpi, ident := some (fidIdents.getD idx 0) }
      else if idx > 4 then
        { p1 with kind := some .extra, ident := some ((idx : Int) + 1 - (fidIdents.length : Int)) }
      else p1
    if 2 < idx ∧ idx < nIdx ∧ useHpi = false then
      setupLoop useHpi nIdx fidIdents (idx + 1) rest
    else
      p2 :: setupLoop useHpi nIdx fidIdents (idx + 1) rest

/-- `setup_head_shape(fname, use_hpi)`: read the head-shape file and build
the digitization list. -/
def setup_head_shape (s : ByteStream) (useHpi : Bool) :
    Except BtiError (List DigPoint) := do
  let (idxPoints, digPoints) ← _read_head_shape s
  let allPoints := idxPoints ++ digPoints
  let fidIdents := pyRange 1 4 ++ pyRange 1 ((idxPoints.length : Int) + 1 - 3)
  .ok (setupLoop useHpi idxPoints.length fidIdents 0 allPoints)

/-- Concrete 160-byte head-shape file for the C10 witness: the stored
digitization-point count (offset 12) is 1; all coordinate payload bytes are
zero. -/
def hsStreamC : ByteStream :=
  ⟨List.replicate 12 0 ++ [0, 0, 0, 1] ++ List.replicate 144 0, 0⟩

/-- A zero 3-vector row, as decoded from the all-zero payload. -/
def hsRow : List Rat := [0, 0, 0]

/-- The digitization list `setup_head_shape` produces from `hsStreamC` with
`use_hpi = True`: 3 cardinal points (idents 1, 2, 3), 2 HPI points, 1 extra
point. -/
def hsDigC : List DigPoint :=
  [⟨some .cardinal, some 1, .vec hsRow, 4⟩,
   ⟨some .cardinal, some 2, .vec hsRow, 4⟩,
   ⟨some .cardinal, some 3, .vec hsRow, 4⟩,
   ⟨some .hpi, some 1, .vec hsRow, 4⟩,
   ⟨some .hpi, some 2, .vec hsRow, 4⟩,
   ⟨some .extra, some 1, .vec hsRow, 4⟩]

/-!
## Missing head-shape file (`Raw.__init__`, raw.py lines 1058-1065)

```
if not op.exists(head_shape_fname):
    raise ValueError('Could not find the head_shape file %s. ...')
...
info['dig'] = setup_head_shape(head_shape_fname, _use_hpi)
```
-/
/-- The head-shape step of `Raw.__init__`: `hsFileExists` models
`op.exists(head_shape_fname)`.  A missing file raises `ValueError`
(modelled `formatError`); otherwise the digitization list is read. -/
def loadDigStep (hsFileExists : Bool) (s : ByteStream) (useHpi : Bool) :
    Except BtiError (List DigPoint) :=
  if hsFileExists = false then .error .formatError
  else setup_head_shape s useHpi

/-!
## Channel reconciliation and calibration (`_read_data`, raw.py lines 804-895)

The records are restricted to the fields `_read_data` reads or writes:

* PDF channel records come from `_read_channel` (the full record also
  carries attributes, axis labels, extrema, checksums — pure payload that
  reconciliation never touches);
* config channel records come from the trailing channel section of
  `read_config` (the `dev` sub-dictionary is present exactly for
  MEG/reference channels, and reconciliation only reads its `transform`).

The steps, in source order: sort PDF channels by channel number; filter
config channels to the PDF channel-number set and sort them; compare the two
channel-number sequences and raise `RuntimeError` on mismatch; copy
units-per-bit, gain, name and device transform from config onto the PDF
record; compute `cal = scale * upb / gain` for data formats 1-2 and
`cal = scale * gain` for 3-4; store it; compute the canonical `by_name`
order (`A`-prefixed names keyed by their trailing integer, everything else
by the name itself — Python 2 orders every integer before every string);
reorder the channel list and scale the data rows by `cal` along that order.
-/
/-- 4 × 4 transform matrix. -/
abbrev Mat4 := List (List Rat)

/-- A PDF channel record (fields of `_read_channel` that `_read_data` uses),
plus the keys `_read_data` adds during reconciliation (`upb`, `gain`,
`name`, `coil_trans`, `cal` are absent — `none` — until transferred). -/
structure DataChan where
  chan_label : String
  chan_no : Int
  scale : Rat
  upb : Option Rat := none
  gain : Option Rat := none
  name : Option String := none
  coil_trans : Option Mat4 := none
  cal : Option Rat := none
  deriving DecidableEq, Repr

/-- A config channel record (fields of `read_config`'s channel section that
reconciliation uses); `dev_transform` is `ch['dev']['transform']`, present
exactly when the `dev` block is (MEG/reference channels). -/
structure CfgChan where
  name : String
  chan_no : Int
  ch_type : Int
  gain : Rat
  units_per_bit : Rat
  dev_transform : Option Mat4 := none
  deriving DecidableEq, Repr

/-- The all-default record used only as a `getD` fallback (never reachable
for in-range indices). -/
def defaultChan : DataChan :=
  { chan_label := "", chan_no := 0, scale := 0 }

/-- Python `int(cs)` on a channel-name suffix: an optional sign followed by
digits.  `none` models the `ValueError` Python would raise. -/
def pyIntOfChars (cs : List Char) : Option Int :=
  match cs with
  | '-' :: rest =>
    if rest ≠ [] ∧ rest.all Char.isDigit then some (-(natOfDigits rest : Int)) else none
  | _ =>
    if cs ≠ [] ∧ cs.all Char.isDigit then some ((natOfDigits cs : Int)) else none

/-- The sort key of `_read_data`'s canonical ordering:
`int(name[1:]) if name[0] == 'A' else name`. -/
inductive ChanKey where
  | num (n : Int)
  | str (s : String)
  deriving DecidableEq, Repr

/-- Python 2 comparison on the mixed keys: every integer sorts before every
string, integers by value, strings lexicographically. -/
def keyLE : ChanKey → ChanKey → Prop
  | .num a, .num b => a ≤ b
  | .num _, .str _ => True
  | .str _, .num _ => False
  | .str a, .str b => a ≤ b

instance : ∀ a b : ChanKey, Decidable (keyLE a b)
  | .num a, .num b => inferInstanceAs (Decidable (a ≤ b))
  | .num _, .str _ => .isTrue trivial
  | .str _, .num _ => .isFalse (fun h => h)
  | .str a, .str b => inferInstanceAs (Decidable (a ≤ b))

/-- `lambda c: int(c[1][1:]) if c[1][0] == 'A' else c[1]`.  When the suffix of
an `A`-name is not an integer Python would raise `ValueError`; the `.str`
fallback chosen here only influences the ordering, and every property proved
below is invariant under the ordering (a sort permutes its input under every
comparison). -/
def nameKey (s : String) : ChanKey :=
  if strStartsWith s "A" then
    match pyIntOfChars (s.data.drop 1) with
    | some n => .num n
    | none => .str s
  else .str s

/-- `chans.sort(key=lambda c: c['chan_no'])` (Python's sort is stable, as is
insertion sort). -/
def sortDataChans (l : List DataChan) : List DataChan :=
  List.insertionSort (fun a b => a.chan_no ≤ b.chan_no) l

/-- `chans_cfg.sort(key=lambda c: c['chan_no'])`. -/
def sortCfgChans (l : List CfgChan) : List CfgChan :=
  List.insertionSort (fun a b => a.chan_no ≤ b.chan_no) l

/-- The transfer loop: copy units-per-bit, gain, name and device transform
from the config record onto the PDF record (`zip` truncates like Python's). -/
def transferChans (chans : List DataChan) (chansCfg : List CfgChan) : List DataChan :=
  List.zipWith (fun ch cfg =>
    { ch with upb := some cfg.units_per_bit, gain := some cfg.gain,
              name := some cfg.name, coil_trans := cfg.dev_transform }) chans chansCfg

/-- Per-channel calibration: `scale * upb * gain**-1` for data formats below
3 (int16/int32), `scale * gain` otherwise.  (`gain = 0` would give numpy
`inf`; in `Rat` the inverse of 0 is 0 — the claims never divide by zero.) -/
def calOf (dataFormat : Int) (c : DataChan) : Rat :=
  if dataFormat < 3 then c.scale * c.upb.getD 0 * (c.gain.getD 0)⁻¹
  else c.scale * c.gain.getD 0

/-- The `by_name` index order: positions `0, …, n-1` sorted by the name key
(stable, like Python's pair sort keyed only on the name). -/
def byNameOrder (l : List DataChan) : List Nat :=
  List.insertionSort (fun i j =>
    keyLE (nameKey ((l.getD i defaultChan).name.getD ""))
          (nameKey ((l.getD j defaultChan).name.getD ""))) (List.range l.length)

/-- The reconciliation-and-calibration tail of `_read_data` (raw.py lines
849-895): takes the PDF channel records, the config channel records and the
decoded data rows (one row per PDF channel, in file order), and returns the
reordered channel list together with the calibrated data rows. -/
def reconcile (dataFormat : Int) (pdfChans : List DataChan) (cfgChans : List CfgChan)
    (dataRows : List (List Rat)) : Except BtiError (List DataChan × List (List Rat)) :=
  let chans := sortDataChans pdfChans
  let chansCfg := sortCfgChans (cfgChans.filter
    (fun c => (chans.map (fun x => x.chan_no)).contains c.chan_no))
  if chansCfg.map (fun c => c.chan_no) = chans.map (fun c => c.chan_no) then
    let merged := transferChans chans chansCfg
    let cal := merged.map (calOf dataFormat)
    let withCal := List.zipWith (fun c v => { c with cal := some v }) merged cal
    let byName := byNameOrder withCal
    .ok (byName.map (fun p => withCal.getD p defaultChan),
         byName.map (fun p => (dataRows.getD p []).map (fun x => cal.getD p 0 * x)))
  else
    .error .formatError

/-- Concrete MEG channel for the C1/C3 instances: PDF record `A1`, channel 1,
scale 1. -/
def chA1 : DataChan := { chan_label := "A1", chan_no := 1, scale := 1 }

/-- Concrete trigger channel: PDF record `TRIGGER`, channel 2, scale 1. -/
def chTrig : DataChan := { chan_label := "TRIGGER", chan_no := 2, scale := 1 }

/-- Config record for `A1` (MEG type 1): gain 4, units-per-bit 8, so the
format-1 calibration is `1 * 8 / 4 = 2`. -/
def cfgA1 : CfgChan := { name := "A1", chan_no := 1, ch_type := 1, gain := 4, units_per_bit := 8 }

/-- Config record for `TRIGGER` (type 5): gain 1, units-per-bit 3, so the
format-1 calibration is `1 * 3 / 1 = 3`. -/
def cfgTrig : CfgChan := { name := "TRIGGER", chan_no := 2, ch_type := 5, gain := 1, units_per_bit := 3 }

/-- The reconciled channel list for `[chA1, chTrig]` against
`[cfgA1, cfgTrig]` at data format 1. -/
def chsC : List DataChan :=
  [{ chan_label := "A1", chan_no := 1, scale := 1, upb := some 8, gain := some 4,
     name := some "A1", coil_trans := none, cal := some 2 },
   { chan_label := "TRIGGER", chan_no := 2, scale := 1, upb := some 3, gain := some 1,
     name := some "TRIGGER", coil_trans := none, cal := some 3 }]

/-- The calibrated data rows for input rows `[[1], [1]]`: both the MEG row
and the trigger row are multiplied by their calibration factors (2 and 3),
and no `1e-15` factor appears. -/
def outC : List (List Rat) := [[2], [3]]

/-!
## Coordinate conversion (`convert_coord_frame`, raw.py lines 157-204)

The function collects the non-EXTRA dig points `fp`, derives `dcos`, `dsin`
and `dt` from dot products and norms of the first three, builds the 4 × 4
transform `t` (over `bti_identity_trans`, whose bottom row is
`BTI.T_IDENT`'s `(1, 1, 1, 1)`; `transforms.py` is not among the reviewed
sources), computes `fiducials_nm` (note the source's `fp[: 1]` slice in the
second column, which broadcasts the FIRST point's coordinates), swaps rows
1 and 2, computes `dig_points_nm = np.dot(t_rot, dpnts).T + trans` — valid
only when `dpnts` is 3 × 3 — and finally runs

```
for idx, pnt in enumerate([np.r_[fiducials_nm, dig_points_nm]]):
    info['dig'][idx]['r'] = pnt
```

The enumerated list has exactly ONE element (the whole 6 × 3 concatenated
array), so only `info['dig'][0]['r']` is assigned — and it receives the
entire matrix.  `np.sqrt` is modelled only at arguments whose exact square
root is rational (`none` otherwise); the numpy shape error for a non-3 × 3
`dpnts` and the `IndexError` on an empty dig list are modelled as `none`
as well.
-/
/-- Smallest-witness exact square root: `some k` iff `k * k = n`. -/
def exactSqrtAux : Nat → Nat → Option Nat
  | 0, n => if 0 * 0 == n then some 0 else none
  | k + 1, n => if (k + 1) * (k + 1) == n then some (k + 1) else exactSqrtAux k n

/-- Exact square root of a natural number, if one exists. -/
def natSqrtExact (n : Nat) : Option Nat :=
  exactSqrtAux n n

/-- Modelled from the spec: `np.sqrt`, restricted to rationals with an exact
rational square root (the claims are evaluated only at such inputs). -/
def ratSqrt (q : Rat) : Option Rat :=
  if q.num < 0 then none
  else
    match natSqrtExact q.num.toNat, natSqrtExact q.den with
    | some sn, some sd => some ((sn : Rat) / (sd : Rat))
    | _, _ => none

/-- A dig point's `r` value as a 3-vector, when it is one (`np.array` of the
collected positions needs uniform 3-vectors). -/
def rvalVec : RVal → Option (Rat × Rat × Rat)
  | .vec [x, y, z] => some (x, y, z)
  | _ => none

/-- `dp`, `dcos`, `dsin`, `dt` of `convert_coord_frame` (lines 175-179):
`dp = fp[2] · (fp[0] - fp[1])`, `dcos = -dp / sqrt(tmp1 * tmp2)`,
`dsin = sqrt(1 - dcos²)`, `dt = dp / sqrt(tmp2)`. -/
def computeAlignment (f0 f1 f2 : Rat × Rat × Rat) : Option (Rat × Rat × Rat) :=
  let d1 := (f0.1 - f1.1, f0.2.1 - f1.2.1, f0.2.2 - f1.2.2)
  let dp := f2.1 * d1.1 + f2.2.1 * d1.2.1 + f2.2.2 * d1.2.2
  let tmp1 := f2.1 ^ 2 + f2.2.1 ^ 2 + f2.2.2 ^ 2
  let tmp2 := d1.1 ^ 2 + d1.2.1 ^ 2 + d1.2.2 ^ 2
  match ratSqrt (tmp1 * tmp2), ratSqrt tmp2 with
  | some s1, some s3 =>
    if s1 = 0 ∨ s3 = 0 then none
    else
      let dcos := -dp / s1
      match ratSqrt (1 - dcos * dcos) with
      | some dsin => some (dcos, dsin, dp / s3)
      | none => none
  | _, _ => none

/-- The transform built over `bti_identity_trans` (lines 189-194):
`t[0,0] = dcos`, `t[0,1] = -dsin`, `t[1,0] = dsin`, `t[1,1] = dcos`,
`t[0,3] = dt`; the untouched entries come from `BTI.T_IDENT`, whose bottom
row is `(1, 1, 1, 1)`. -/
def buildT (dcos dsin dt : Rat) : List (List Rat) :=
  [[dcos, -dsin, 0, dt], [dsin, dcos, 0, 0], [0, 0, 1, 0], [1, 1, 1, 1]]

/-- `fiducials_nm` (lines 181-187), already with rows 1 and 2 swapped.
Column 0 is `dcos*fp[:,0] - dsin*fp[:,0] + dt`; column 1 is
`dsin*fp[: 1] + dcos*fp[:,1]` — the `fp[: 1]` slice broadcasts the FIRST
point's coordinates, so row `i` gets `dsin * fp[0][i] + dcos * fp[i][1]`;
column 2 is `fp[:,2]`. -/
def fiducialsNm (dcos dsin dt : Rat) (f0 f1 f2 : Rat × Rat × Rat) : List (List Rat) :=
  let row0 := [dcos * f0.1 - dsin * f0.1 + dt, dsin * f0.1 + dcos * f0.2.1, f0.2.2]
  let row1 := [dcos * f1.1 - dsin * f1.1 + dt, dsin * f0.2.1 + dcos * f1.2.1, f1.2.2]
  let row2 := [dcos * f2.1 - dsin * f2.1 + dt, dsin * f0.2.2 + dcos * f2.2.1, f2.2.2]
  [row0, row2, row1]

/-- `dig_points_nm = np.dot(t[rot], dpnts).T + t[trans].T` (lines 196-199)
for the 3 × 3 `dpnts` whose rows are the three non-extra points: output row
`j` is the rotation applied to `dpnts`' COLUMN `j`, plus `(dt, 0, 0)`. -/
def digPointsNm (dcos dsin dt : Rat) (f0 f1 f2 : Rat × Rat × Rat) : List (List Rat) :=
  [[dcos * f0.1 - dsin * f1.1 + dt, dsin * f0.1 + dcos * f1.1, f2.1],
   [dcos * f0.2.1 - dsin * f1.2.1 + dt, dsin * f0.2.1 + dcos * f1.2.1, f2.2.1],
   [dcos * f0.2.2 - dsin * f1.2.2 + dt, dsin * f0.2.2 + dcos * f1.2.2, f2.2.2]]

/-- `convert_coord_frame(info)`: returns the transform and the updated dig
list.  Only `info['dig'][0]['r']` is reassigned — the enumerated list in the
final loop has a single element, the whole 6 × 3 concatenation. -/
def convert_coord_frame (dig : List DigPoint) : Option (List (List Rat) × List DigPoint) :=
  match (dig.filterMap
      (fun d => if d.kind ≠ some PointKind.extra then some d.r else none)).mapM rvalVec with
  | none => none
  | some fpv =>
    match fpv with
    | [f0, f1, f2] =>
      match computeAlignment f0 f1 f2 with
      | none => none
      | some (dcos, dsin, dt) =>
        let t := buildT dcos dsin dt
        let allNm := fiducialsNm dcos dsin dt f0 f1 f2 ++ digPointsNm dcos dsin dt f0 f1 f2
        match dig with
        | [] => none
        | p0 :: rest => some (t, { p0 with r := .mat allNm } :: rest)
    | _ => none

/-- First cardinal point of the C6 failing input. -/
def d0C : DigPoint := ⟨some .cardinal, some 1, .vec [1, 0, 0], 4⟩

/-- Second cardinal point of the C6 failing input. -/
def d1C : DigPoint := ⟨some .cardinal, some 2, .vec [2, 0, 0], 4⟩

/-- Third cardinal point of the C6 failing input. -/
def d2C : DigPoint := ⟨some .cardinal, some 3, .vec [0, 3, 4], 4⟩

/-- Extra digitization point of the C6 failing input. -/
def d3C : DigPoint := ⟨some .extra, some 1, .vec [9, 9, 9], 4⟩

/-- The transform computed at the C6 failing input (`dcos = 0`, `dsin = 1`,
`dt = 0`). -/
def tC : List (List Rat) := [[0, -1, 0, 0], [1, 0, 0, 0], [0, 0, 1, 0], [1, 1, 1, 1]]

/-- The 6 × 3 matrix that overwrites the FIRST dig point's position. -/
def allNmC : List (List Rat) :=
  [[-1, 1, 0], [0, 0, 4], [-2, 0, 0], [-2, 1, 0], [0, 0, 3], [0, 0, 4]]

/-- Fallback dig point for `getD`. -/
def defaultDig : DigPoint := ⟨none, none, .vec [], 0⟩

/-- Rotation-plus-translation action of a 4 × 4 transform on a 3-vector
(`t[rot] @ v + t[trans]`) — what "applying the transform to a point" means. -/
def applyRotTrans (t : List (List Rat)) (v : List Rat) : List Rat :=
  let a := fun i j => (t.getD i []).getD j 0
  let x := v.getD 0 0
  let y := v.getD 1 0
  let z := v.getD 2 0
  [a 0 0 * x + a 0 1 * y + a 0 2 * z + a 0 3,
   a 1 0 * x + a 1 1 * y + a 1 2 * z + a 1 3,
   a 2 0 * x + a 2 1 * y + a 2 2 * z + a 2 3]

/-!
## Config user blocks (`read_config`, raw.py lines 215-480)

`read_config` reads a fixed header, `total_sensors` coil transforms, then
`total_user_blocks` user blocks: each has a 100-byte self-describing header
(byte length, string kind tag, checksum, username, timestamp, user-space
size, reserved bytes) followed by a kind-dispatched payload, with an 8-byte
alignment correction after the header and after the payload.  An empty kind
tag raises `RuntimeError`.  A kind outside the known `UB_B_*` set is stored
as an opaque blob of `user_space_size` bytes.  The channel-map and subsystem
table blocks fetch their entry count from the version block parsed earlier
into the accumulating block dictionary and raise `ValueError` when it is
absent.

The accumulating dictionary is modelled as an association list with
replace-on-duplicate insertion; the source inserts the (mutable) block dict
before parsing its payload, but no payload parser looks up its own kind, so
inserting after parsing is observationally equal.
-/
/-- Header of a user block (`ub['hdr']`, minus the popped kind tag). -/
structure UBHdr where
  nbytes : Int
  checksum : Int
  username : String
  timestamp : Int
  user_space_size : Int
  reserved : List Int
  deriving DecidableEq, Repr

/-- One `B_Mag_Info` per-header record. -/
structure MagHdr where
  name : String
  transform : List (List Rat)
  units_per_bit : Rat
  deriving DecidableEq, Repr

/-- One `B_COH_Points` point record. -/
structure CohPoint where
  pos : List (List Rat)
  direction : List (List Rat)
  err : Rat
  deriving DecidableEq, Repr

/-- One `b_eeg_elec_locs` electrode record. -/
structure EegLoc where
  label : String
  location : List (List Rat)
  deriving DecidableEq, Repr

/-- One `B_WHChanMap` channel-map entry. -/
structure ChanMapEntry where
  subsys_type : Int
  subsys_num : Int
  card_num : Int
  chan_num : Int
  recdspnum : Int
  deriving DecidableEq, Repr

/-- One `B_WHSubsys` subsystem entry. -/
structure SubsysEntry where
  subsys_type : Int
  subsys_num : Int
  cards_per_sys : Int
  channels_per_card : Int
  card_version : Int
  offsetdacgain : Rat
  squid_type : Int
  timesliceoffset : Int
  padding : Int
  volts_per_bit : Rat
  deriving DecidableEq, Repr

/-- Header of a `B_E_table_used` / `B_E_TABLE` block. -/
structure ETableHdr where
  version : Int
  entry_size : Int
  n_entries : Int
  filtername : String
  n_e_values : Int
  reserved : String
  deriving DecidableEq, Repr

/-- Header of a `B_weights_used` / `BWT_` block. -/
structure WeightsHdr where
  version : Int
  entry_size : Int
  n_entries : Int
  name : String
  description : String
  n_anlg : Int
  n_dsp : Int
  reserved : String
  deriving DecidableEq, Repr

/-- One `B_trig_mask` entry. -/
structure TrigMaskEntry where
  name : String
  nbits : Int
  shift : Int
  mask : Int
  deriving DecidableEq, Repr

/-- The kind-specific payload of a user block. -/
inductive UBData where
  | magInfo (version : Int) (headers : List MagHdr)
  | cohPoints (nPoints status : Int) (points : List CohPoint)
  | ccpXfm (method : Int) (transform : List (List Rat))
  | eegLocs (electrodes : List EegLoc)
  | verBlock (version structSize entries : Int)
  | chanMap (channels : List ChanMapEntry)
  | subsys (entries : List SubsysEntry)
  | chLabels (version entries : Int) (labels : List String)
  | calibration (sensorNo timestamp : Int) (logdir : String)
  | sysConfigTime (sysconfigName : String) (timestamp : Int)
  | deltaEnabled (delta : Int)
  | eTable (hdr : ETableHdr) (chNames eChNames : List String) (etable : List (List Rat))
  | weights (hdr : WeightsHdr) (chNames anlgChNames dspChNames : List String)
      (dspWts : List (List Rat)) (anlgWts : List (List Int))
  | trigMask (version entries : Int) (masks : List TrigMaskEntry)
  | unknown (blob : List Int)
  | empty
  deriving DecidableEq, Repr

/-- A parsed user block: header plus payload. -/
structure UserBlock where
  hdr : UBHdr
  dta : UBData
  deriving DecidableEq, Repr

/-- Dictionary insertion: Python dict assignment replaces an existing key and
otherwise appends. -/
def insertBlock (blocks : List (String × UserBlock)) (k : String) (b : UserBlock) :
    List (String × UserBlock) :=
  if (blocks.map Prod.fst).contains k then
    blocks.map (fun p => if p.1 = k then (k, b) else p)
  else blocks ++ [(k, b)]

/-- The six fixed `B_Mag_Info` headers. -/
def readMagHdrs : Nat → ByteStream → Except BtiError (List MagHdr × ByteStream)
  | 0, s => .ok ([], s)
  | n + 1, s => do
    let (nm, s) ← read_str s 16
    let (tr, s) ← read_transform s
    let (upb, s) ← read_float s
    let s := s.seekRel 20
    let (rest, s2) ← readMagHdrs n s
    .ok (⟨nm, tr, upb⟩ :: rest, s2)

/-- The sixteen fixed `B_COH_Points` records. -/
def readCohPoints : Nat → ByteStream → Except BtiError (List CohPoint × ByteStream)
  | 0, s => .ok ([], s)
  | n + 1, s => do
    let (p, s) ← read_double_matrix s 1 3
    let (d, s) ← read_double_matrix s 1 3
    let (e, s) ← read_double s
    let (rest, s2) ← readCohPoints n s
    .ok (⟨p, d, e⟩ :: rest, s2)

/-- The `while True` electrode loop of `b_eeg_elec_locs`: read records until
the label is empty; `fuel` bounds the recursion (each iteration consumes 40
bytes, so `data.length + 1` is always enough — an EOF surfaces as the
reader's `FormatError` first). -/
def readElectrodes : Nat → ByteStream → Except BtiError (List EegLoc × ByteStream)
  | 0, _ => .error .formatError
  | fuel + 1, s => do
    let (lbl, s) ← read_str s 16
    let (loc, s) ← read_double_matrix s 1 3
    if lbl = "" then .ok ([], s)
    else do
      let (rest, s2) ← readElectrodes fuel s
      .ok (⟨lbl, loc⟩ :: rest, s2)

/-- The counted `B_WHChanMap` entry loop (each entry: five int16 fields and
an 8-byte skip). -/
def readChanMapEntries : Nat → ByteStream → Except BtiError (List ChanMapEntry × ByteStream)
  | 0, s => .ok ([], s)
  | n + 1, s => do
    let (st, s) ← read_int16 s
    let (sn, s) ← read_int16 s
    let (cn, s) ← read_int16 s
    let (chn, s) ← read_int16 s
    let (rd, s) ← read_int16 s
    let s := s.seekRel 8
    let (rest, s2) ← readChanMapEntries n s
    .ok (⟨st, sn, cn, chn, rd⟩ :: rest, s2)

/-- The counted `B_WHSubsys` entry loop. -/
def readSubsysEntries : Nat → ByteStream → Except BtiError (List SubsysEntry × ByteStream)
  | 0, s => .ok ([], s)
  | n + 1, s => do
    let (st, s) ← read_int16 s
    let (sn, s) ← read_int16 s
    let (cps, s) ← read_int16 s
    let (cpc, s) ← read_int16 s
    let (cv, s) ← read_int16 s
    let s := s.seekRel 2
    let (odg, s) ← read_float s
    let (sq, s) ← read_int32 s
    let (tso, s) ← read_int16 s
    let (pd, s) ← read_int16 s
    let (vpb, s) ← read_float s
    let (rest, s2) ← readSubsysEntries n s
    .ok (⟨st, sn, cps, cpc, cv, odg, sq, tso, pd, vpb⟩ :: rest, s2)

/-- The counted `B_ch_labels` label loop. -/
def readLabels : Nat → ByteStream → Except BtiError (List String × ByteStream)
  | 0, s => .ok ([], s)
  | n + 1, s => do
    let (lbl, s) ← read_str s 16
    let (rest, s2) ← readLabels n s
    .ok (lbl :: rest, s2)

/-- The counted fixed-width string loop of the E-table and weight-table
channel-name sections. -/
def readStrList : Nat → Nat → ByteStream → Except BtiError (List String × ByteStream)
  | 0, _, s => .ok ([], s)
  | n + 1, w, s => do
    let (nm, s) ← read_str s w
    let (rest, s2) ← readStrList n w s
    .ok (nm :: rest, s2)

/-- The counted `B_trig_mask` entry loop. -/
def readTrigMasks : Nat → ByteStream → Except BtiError (List TrigMaskEntry × ByteStream)
  | 0, s => .ok ([], s)
  | n + 1, s => do
    let (nm, s) ← read_str s 20
    let (nb, s) ← read_uint16 s
    let (sh, s) ← read_uint16 s
    let (mk, s) ← read_uint32 s
    let s := s.seekRel 8
    let (rest, s2) ← readTrigMasks n s
    .ok (⟨nm, nb, sh, mk⟩ :: rest, s2)

/-- The `B_WHChanMap` payload parser (raw.py lines 315-334): fetch the entry
count from the `B_WHChanMapVer` block already in the accumulating dictionary
(the first matching key, as in the source's `items()` loop with `break`);
raise `ValueError` — the spec's `FormatError` — when it is absent.  A ver
block stored under that name always carries `entries` (its branch is keyed
by the same kind string); the impossible shape is a `KeyError` crash. -/
def parseChanMap (blocks : List (String × UserBlock)) (s : ByteStream) :
    Except BtiError (List ChanMapEntry × ByteStream) :=
  match blocks.find? (fun q => q.1 = "B_WHChanMapVer") with
  | none => .error .formatError
  | some p =>
    match p.2.dta with
    | .verBlock _ _ entries => readChanMapEntries entries.toNat s
    | _ => .error .crash

/-- The `B_WHSubsys` payload parser (raw.py lines 336-364), analogous. -/
def parseSubsys (blocks : List (String × UserBlock)) (s : ByteStream) :
    Except BtiError (List SubsysEntry × ByteStream) :=
  match blocks.find? (fun q => q.1 = "B_WHSubsysVer") with
  | none => .error .formatError
  | some p =>
    match p.2.dta with
    | .verBlock _ _ entries => readSubsysEntries entries.toNat s
    | _ => .error .crash

/-- `BTI_WH2500_REF_MAG` (raw.py line 48). -/
def BTI_WH2500_REF_MAG : List String := ["MxA", "MyA", "MzA", "MxaA", "MyaA", "MzaA"]

/-- `BTI_WH2500_REF_GRAD` (raw.py line 49). -/
def BTI_WH2500_REF_GRAD : List String := ["GxxA", "GyyA", "GyxA", "GzaA", "GzyA"]

/-- The `B_E_table_used` / `B_E_TABLE` payload (raw.py lines 388-414). -/
def parseETable (s : ByteStream) : Except BtiError (UBData × ByteStream) := do
  let (version, s) ← read_int32 s
  let (entrySize, s) ← read_int32 s
  let (nEntries, s) ← read_int32 s
  let (filtername, s) ← read_str s 16
  let (nEValues, s) ← read_int32 s
  let (reserved, s) ← read_str s 28
  if version = 2 then do
    let (chNames, s) ← readStrList nEntries.toNat 16 s
    let (eChNames, s) ← readStrList nEValues.toNat 16 s
    let (etable, s) ← read_float_matrix s nEntries.toNat nEValues.toNat
    .ok (.eTable ⟨version, entrySize, nEntries, filtername, nEValues, reserved⟩
      chNames eChNames etable, s)
  else do
    -- MAGNES2500 naming scheme: `ch_names` gets `n_e_values` copies of
    -- 'WH2500' BEFORE `n_e_values` is overwritten with 6
    let chNames := List.replicate nEValues.toNat "WH2500"
    let (etable, s) ← read_float_matrix s nEntries.toNat 6
    let s := correct_offset s
    .ok (.eTable ⟨version, entrySize, nEntries, filtername, 6, reserved⟩
      chNames BTI_WH2500_REF_MAG etable, s)

/-- The `B_weights_used` / `BWT_*` payload (raw.py lines 416-459).  The
non-version-2 branch indexes `dta['anlg_wts']` with the stale loop variable
`d` — a Python-level crash (`NameError` or a numpy indexing `TypeError`),
modelled as `crash`. -/
def parseWeights (s : ByteStream) : Except BtiError (UBData × ByteStream) := do
  let (version, s) ← read_int32 s
  let (entrySize, s) ← read_int32 s
  let (nEntries, s) ← read_int32 s
  let (name, s) ← read_str s 32
  let (description, s) ← read_str s 80
  let (nAnlg, s) ← read_int32 s
  let (nDsp, s) ← read_int32 s
  let (reserved, s) ← read_str s 72
  if version = 2 then do
    let (chNames, s) ← readStrList nEntries.toNat 16 s
    let (anlgChNames, s) ← readStrList nAnlg.toNat 16 s
    let (dspChNames, s) ← readStrList nDsp.toNat 16 s
    let (dspWts, s) ← read_float_matrix s nEntries.toNat nDsp.toNat
    let (anlgWts, s) ← read_int16_matrix s nEntries.toNat nAnlg.toNat
    .ok (.weights ⟨version, entrySize, nEntries, name, description, nAnlg, nDsp, reserved⟩
      chNames anlgChNames dspChNames dspWts anlgWts, s)
  else
    .error .crash

/-- The known user-block kind tags: the `BTI.UB_B_*` constant values
(constants.py lines 84-100). -/
def knownKinds : List String :=
  ["B_Mag_Info", "B_COH_Points", "b_ccp_xfm_block", "b_eeg_elec_locs",
   "B_WHChanMapVer", "B_WHChanMap", "B_WHSubsysVer", "B_WHSubsys",
   "B_ch_labels", "B_Calibration", "B_SysConfigTime", "B_DELTA_ENABLED",
   "B_E_table_used", "B_E_TABLE", "B_weights_used", "B_trig_mask", "BWT_"]

/-- Dispatch the payload parse on the kind tag, in the source's branch
order. -/
def parseUserBlockData (blocks : List (String × UserBlock)) (kind : String)
    (userSpaceSize : Int) (s : ByteStream) : Except BtiError (UBData × ByteStream) :=
  if knownKinds.contains kind then
    if kind = "B_Mag_Info" then do
      let (version, s) ← read_int32 s
      let s := s.seekRel 20
      let (headers, s) ← readMagHdrs 6 s
      .ok (.magInfo version headers, s)
    else if kind = "B_COH_Points" then do
      let (nPoints, s) ← read_int32 s
      let (status, s) ← read_int32 s
      let (points, s) ← readCohPoints 16 s
      .ok (.cohPoints nPoints status points, s)
    else if kind = "b_ccp_xfm_block" then do
      let (method, s) ← read_int32 s
      let s := s.seekRel 4
      let (tr, s) ← read_transform s
      .ok (.ccpXfm method tr, s)
    else if kind = "b_eeg_elec_locs" then do
      let (els, s) ← readElectrodes (s.data.length + 1) s
      .ok (.eegLocs els, s)
    else if kind = "B_WHChanMapVer" ∨ kind = "B_WHSubsysVer" then do
      let (version, s) ← read_int16 s
      let (structSize, s) ← read_int16 s
      let (entries, s) ← read_int16 s
      let s := s.seekRel 8
      .ok (.verBlock version structSize entries, s)
    else if kind = "B_WHChanMap" then do
      let (channels, s) ← parseChanMap blocks s
      .ok (.chanMap channels, s)
    else if kind = "B_WHSubsys" then do
      let (entries, s) ← parseSubsys blocks s
      .ok (.subsys entries, s)
    else if kind = "B_ch_labels" then do
      let (version, s) ← read_int32 s
      let (entries, s) ← read_int32 s
      let s := s.seekRel 16
      let (labels, s) ← readLabels entries.toNat s
      .ok (.chLabels version entries labels, s)
    else if kind = "B_Calibration" then do
      let (sensorNo, s) ← read_int16 s
      let s := s.seekRel 2
      let (timestamp, s) ← read_int32 s
      let (logdir, s) ← read_str s 256
      .ok (.calibration sensorNo timestamp logdir, s)
    else if kind = "B_SysConfigTime" then do
      let (sysconfigName, s) ← read_str s 512
      let (timestamp, s) ← read_int32 s
      .ok (.sysConfigTime sysconfigName timestamp, s)
    else if kind = "B_DELTA_ENABLED" then do
      let (delta, s) ← read_int16 s
      .ok (.deltaEnabled delta, s)
    else if kind = "B_E_table_used" ∨ kind = "B_E_TABLE" then
      parseETable s
    else if kind = "B_weights_used" ∨ strStartsWith kind "BWT_" then
      parseWeights s
    else if kind = "B_trig_mask" then do
      let (version, s) ← read_int32 s
      let (entries, s) ← read_int32 s
      let s := s.seekRel 16
      let (masks, s) ← readTrigMasks entries.toNat s
      .ok (.trigMask version entries masks, s)
    else
      .ok (.empty, s)
  else do
    let (blob, s) ← read_char s userSpaceSize.toNat
    .ok (.unknown blob, s)

/-- Read one user block: the 100-byte header, the offset correction, the
empty-kind check (`RuntimeError`), the payload dispatch and the trailing
offset correction; store the block in the dictionary. -/
def readUserBlock (blocks : List (String × UserBlock)) (s : ByteStream) :
    Except BtiError (List (String × UserBlock) × ByteStream) := do
  let (nbytes, s) ← read_int32 s
  let (kind, s) ← read_str s 20
  let (checksum, s) ← read_int32 s
  let (username, s) ← read_str s 32
  let (timestamp, s) ← read_int32 s
  let (userSpaceSize, s) ← read_int32 s
  let (reserved, s) ← read_char s 32
  let s := correct_offset s
  if kind = "" then .error .formatError
  else do
    let (dta, s) ← parseUserBlockData blocks kind userSpaceSize s
    let s := correct_offset s
    .ok (insertBlock blocks kind
      ⟨⟨nbytes, checksum, username, timestamp, userSpaceSize, reserved⟩, dta⟩, s)

/-- The user-block loop: `for block in range(total_user_blocks)`. -/
def readUserBlocks : Nat → List (String × UserBlock) → ByteStream →
    Except BtiError (List (String × UserBlock) × ByteStream)
  | 0, blocks, s => .ok (blocks, s)
  | n + 1, blocks, s => do
    let (blocks, s) ← readUserBlock blocks s
    readUserBlocks n blocks s

/-- The fixed config-file header (raw.py lines 233-244). -/
structure ConfigHdr where
  version : Int
  site_name : String
  dap_hostname : String
  sys_type : Int
  sys_options : Int
  supply_freq : Int
  total_chans : Int
  system_fixed_gain : Rat
  volts_per_bit : Rat
  total_sensors : Int
  total_user_blocks : Int
  next_der_chan_no : Int
  deriving DecidableEq, Repr

/-- The `total_sensors` coil-transform loop. -/
def readTransforms : Nat → ByteStream → Except BtiError (List (List (List Rat)) × ByteStream)
  | 0, s => .ok ([], s)
  | n + 1, s => do
    let (t, s) ← read_transform s
    let (rest, s2) ← readTransforms n s
    .ok (t :: rest, s2)

/-- `read_config` through its user-block section (raw.py lines 229-480):
header, 2-byte skip, checksum, 32 reserved bytes, sensor transforms, user
blocks.  (The trailing per-channel records feed reconciliation and are
embedded as `CfgChan` records above.) -/
def read_config_blocks (s : ByteStream) :
    Except BtiError ((ConfigHdr × Int × List (List (List Rat)) × List (String × UserBlock)) ×
      ByteStream) := do
  let (version, s) ← read_int16 s
  let (siteName, s) ← read_str s 32
  let (dapHostname, s) ← read_str s 16
  let (sysType, s) ← read_int16 s
  let (sysOptions, s) ← read_int32 s
  let (supplyFreq, s) ← read_int16 s
  let (totalChans, s) ← read_int16 s
  let (systemFixedGain, s) ← read_float s
  let (voltsPerBit, s) ← read_float s
  let (totalSensors, s) ← read_int16 s
  let (totalUserBlocks, s) ← read_int16 s
  let (nextDerChanNo, s) ← read_int16 s
  let s := s.seekRel 2
  let (checksum, s) ← read_uint32 s
  let (_reserved, s) ← read_char s 32
  let (transforms, s) ← readTransforms totalSensors.toNat s
  let hdr : ConfigHdr := ⟨version, siteName, dapHostname, sysType, sysOptions, supplyFreq,
    totalChans, systemFixedGain, voltsPerBit, totalSensors, totalUserBlocks, nextDerChanNo⟩
  let (blocks, s) ← readUserBlocks totalUserBlocks.toNat [] s
  .ok ((hdr, checksum, transforms, blocks), s)

/-- The version block of the C7 witness: declares 3 channel-map entries. -/
def verBlockC : UserBlock := ⟨⟨0, 0, "", 0, 0, []⟩, .verBlock 1 10 3⟩

/-- The block dictionary of the C7 witness. -/
def blocksC : List (String × UserBlock) := [("B_WHChanMapVer", verBlockC)]

/-- A 54-byte all-zero payload stream (exactly 3 channel-map entries). -/
def cmStreamC : ByteStream := ⟨List.replicate 54 0, 0⟩

/-- ASCII bytes of a string, NUL-padded to a fixed field width. -/
def strBytes (str : String) (n : Nat) : List Int :=
  str.data.map (fun c => (c.toNat : Int)) ++ List.replicate (n - str.data.length) 0

/-- A synthetic two-block config section: a `B_WHChanMapVer` block declaring
3 entries followed by a dependent `B_WHChanMap` block, with the 8-byte
alignment paddings of the on-disk layout. -/
def cfgBlocksStreamC : ByteStream :=
  ⟨(List.replicate 4 0 ++ strBytes "B_WHChanMapVer" 20 ++ List.replicate 76 0)
    ++ List.replicate 4 0
    ++ ([0, 1] ++ [0, 10] ++ [0, 3])
    ++ List.replicate 8 0
    ++ List.replicate 2 0
    ++ (List.replicate 4 0 ++ strBytes "B_WHChanMap" 20 ++ List.replicate 76 0)
    ++ List.replicate 4 0
    ++ List.replicate 54 0, 0⟩

/-!
## Theorems
-/

theorem strStartsWith_head {n p : String} {c : Char} {cs : List Char}
    (hp : p.data = c :: cs) (h : strStartsWith n p = true) :
    ∃ t, n.data = c :: t := by
  unfold strStartsWith at h
  rw [hp] at h
  cases hnd : n.data with
  | nil => rw [hnd] at h; simp [List.isPrefixOf] at h
  | cons a t =>
    rw [hnd] at h
    simp only [List.isPrefixOf, Bool.and_eq_true, beq_iff_eq] at h
    exact ⟨t, by rw [h.1]⟩

theorem strStartsWith_false_of_head {n q : String} {c d : Char} {t qs : List Char}
    (hnd : n.data = c :: t) (hq : q.data = d :: qs) (hne : c ≠ d) :
    strStartsWith n q = false := by
  unfold strStartsWith
  rw [hq, hnd]
  simp only [List.isPrefixOf, Bool.and_eq_false_iff]
  left
  simp [beq_eq_false_iff_ne]
  exact fun hdc => hne hdc.symm

theorem ne_of_data_head {n m : String} {c d : Char} {t ms : List Char}
    (hnd : n.data = c :: t) (hm : m.data = d :: ms) (hne : c ≠ d) : n ≠ m := by
  intro he
  rw [he, hm] at hnd
  exact hne (by injection hnd with h1 _; exact h1.symm)

/-- Unfolding lemma: one loop iteration emits `renameOne` and bumps each
counter exactly when its branch predicate holds. -/
theorem renameLoop_cons (i eog refMag refGrad ext : Nat) (n : String) (ns : List String) :
    renameLoop i eog refMag refGrad ext (n :: ns) =
      renameOne i eog refMag refGrad ext n ::
        renameLoop (i + 1) (eog + if eogPred n then 1 else 0)
          (refMag + if mPred n then 1 else 0) (refGrad + if gPred n then 1 else 0)
          (ext + if xPred n then 1 else 0) ns := by
  by_cases hA : strStartsWith n "A" = true
  · obtain ⟨t, hnd⟩ := strStartsWith_head (p := "A") rfl hA
    have hE : eogPred n = false := strStartsWith_false_of_head hnd rfl (by decide)
    have hM : mPred n = false := strStartsWith_false_of_head hnd rfl (by decide)
    have hG : gPred n = false := strStartsWith_false_of_head hnd rfl (by decide)
    have hX : xPred n = false := strStartsWith_false_of_head hnd rfl (by decide)
    simp [renameLoop, renameOne, hA, hE, hM, hG, hX]
  · by_cases hR : n = "RESPONSE"
    · subst hR
      simp [renameLoop, renameOne, eogPred, mPred, gPred, xPred, hA,
        show strStartsWith "RESPONSE" "EOG" = false from by decide,
        show strStartsWith "RESPONSE" "M" = false from by decide,
        show strStartsWith "RESPONSE" "G" = false from by decide,
        show strStartsWith "RESPONSE" "X" = false from by decide]
    · by_cases hT : n = "TRIGGER"
      · subst hT
        simp [renameLoop, renameOne, eogPred, mPred, gPred, xPred, hA, hR,
          show strStartsWith "TRIGGER" "EOG" = false from by decide,
          show strStartsWith "TRIGGER" "M" = false from by decide,
          show strStartsWith "TRIGGER" "G" = false from by decide,
          show strStartsWith "TRIGGER" "X" = false from by decide]
      · by_cases hE : strStartsWith n "EOG" = true
        · obtain ⟨t, hnd⟩ := strStartsWith_head (p := "EOG") rfl hE
          have hM : mPred n = false := strStartsWith_false_of_head hnd rfl (by decide)
          have hG : gPred n = false := strStartsWith_false_of_head hnd rfl (by decide)
          have hX : xPred n = false := strStartsWith_false_of_head hnd rfl (by decide)
          simp [renameLoop, renameOne, eogPred, hA, hR, hT, hE, hM, hG, hX]
        · by_cases hC : n = "ECG"
          · subst hC
            simp [renameLoop, renameOne, eogPred, mPred, gPred, xPred, hA, hR, hT, hE,
              show strStartsWith "ECG" "M" = false from by decide,
              show strStartsWith "ECG" "G" = false from by decide,
              show strStartsWith "ECG" "X" = false from by decide]
          · by_cases hU : n = "UACurrent"
            · subst hU
              simp [renameLoop, renameOne, eogPred, mPred, gPred, xPred, hA, hR, hT, hE, hC,
                show strStartsWith "UACurrent" "M" = false from by decide,
                show strStartsWith "UACurrent" "G" = false from by decide,
                show strStartsWith "UACurrent" "X" = false from by decide]
            · by_cases hM : strStartsWith n "M" = true
              · obtain ⟨t, hnd⟩ := strStartsWith_head (p := "M") rfl hM
                have hG : gPred n = false := strStartsWith_false_of_head hnd rfl (by decide)
                have hX : xPred n = false := strStartsWith_false_of_head hnd rfl (by decide)
                simp [renameLoop, renameOne, eogPred, mPred, hA, hR, hT, hE, hC, hU, hM, hG, hX]
              · by_cases hG : strStartsWith n "G" = true
                · obtain ⟨t, hnd⟩ := strStartsWith_head (p := "G") rfl hG
                  have hX : xPred n = false := strStartsWith_false_of_head hnd rfl (by decide)
                  simp [renameLoop, renameOne, eogPred, mPred, gPred, hA, hR, hT, hE, hC, hU,
                    hM, hG, hX]
                · by_cases hX : strStartsWith n "X" = true
                  · simp [renameLoop, renameOne, eogPred, mPred, gPred, xPred, hA, hR, hT, hE,
                      hC, hU, hM, hG, hX]
                  · simp [renameLoop, renameOne, eogPred, mPred, gPred, xPred, hA, hR, hT, hE,
                      hC, hU, hM, hG, hX]

/-- Master index lemma: the `k`-th output of the loop is `renameOne` applied at
position `i + k` with each counter advanced by the branch count over the first
`k` input names. -/
theorem renameLoop_getD (ns : List String) :
    ∀ k i eog refMag refGrad ext, k < ns.length →
      (renameLoop i eog refMag refGrad ext ns).getD k "" =
        renameOne (i + k) (eog + (ns.take k).countP eogPred)
          (refMag + (ns.take k).countP mPred) (refGrad + (ns.take k).countP gPred)
          (ext + (ns.take k).countP xPred) (ns.getD k "") := by
  induction ns with
  | nil => intro k _ _ _ _ _ hk; exact absurd hk (by simp)
  | cons n ns ih =>
    intro k i eog refMag refGrad ext hk
    rw [renameLoop_cons]
    cases k with
    | zero => simp
    | succ k =>
      have hk2 : k < ns.length := by simpa using hk
      simp only [List.getD_cons_succ, List.take_succ_cons, List.countP_cons]
      rw [ih k (i + 1) _ _ _ _ hk2]
      congr 1 <;> omega

/-- C8 counterexample: a channel named `"A12"` does not rename to
`"MEG 012"`; renaming of `A`-prefixed names is position-based, and at
position 1 the output is `"MEG 001"`. -/
theorem c8_rename_counterexample :
    _rename_channels ["A12"] = ["MEG 001"] ∧ ("MEG 001" : String) ≠ "MEG 012" := by
  constructor <;> decide

/-- C8 (amended): for every input list, an `A`-prefixed channel at 1-based
position `k + 1` renames to `"MEG "` plus that position zero-padded to three
digits (so `"A12"` renames to `"MEG 012"` exactly when it is the 12th
channel); the channel whose name is `"TRIGGER"` renames to `"STI 014"`; and
an `"EOG"`-prefixed channel preceded by exactly one other `"EOG"`-prefixed
channel renames to `"EOG 002"`. -/
theorem c8_rename_scenarios :
    (∀ ns k, k < ns.length → strStartsWith (ns.getD k "") "A" = true →
      (_rename_channels ns).getD k "" = "MEG " ++ pad3 (k + 1)) ∧
    (∀ ns k, k < ns.length → ns.getD k "" = "TRIGGER" →
      (_rename_channels ns).getD k "" = "STI 014") ∧
    (∀ ns k, k < ns.length → strStartsWith (ns.getD k "") "EOG" = true →
      (ns.take k).countP eogPred = 1 →
      (_rename_channels ns).getD k "" = "EOG 002") := by
  refine ⟨?_, ?_, ?_⟩
  · intro ns k hk hA
    rw [_rename_channels, renameLoop_getD ns k 1 0 0 0 0 hk, renameOne, if_pos hA]
    rw [Nat.add_comm 1 k]
  · intro ns k hk hT
    rw [_rename_channels, renameLoop_getD ns k 1 0 0 0 0 hk, hT, renameOne]
    rw [if_neg (by decide), if_neg (by decide), if_pos rfl]
  · intro ns k hk hE hcount
    rw [_rename_channels, renameLoop_getD ns k 1 0 0 0 0 hk]
    obtain ⟨t, hnd⟩ := strStartsWith_head (p := "EOG") rfl hE
    have hA : strStartsWith (ns.getD k "") "A" = false :=
      strStartsWith_false_of_head hnd rfl (by decide)
    have hR : ns.getD k "" ≠ "RESPONSE" := ne_of_data_head hnd rfl (by decide)
    have hT : ns.getD k "" ≠ "TRIGGER" := ne_of_data_head hnd rfl (by decide)
    rw [renameOne, if_neg (by rw [hA]; decide), if_neg hR, if_neg hT, if_pos hE, hcount]
    decide

/-- C8 witness: with twelve `A`-channels followed by two EOG channels and a
trigger channel, `"A12"` (at position 12) renames to `"MEG 012"`, the 2nd
EOG channel renames to `"EOG 002"`, and `"TRIGGER"` renames to `"STI 014"`. -/
theorem c8_rename_scenarios_witness :
    (_rename_channels ["A1", "A2", "A3", "A4", "A5", "A6", "A7", "A8", "A9", "A10",
      "A11", "A12", "EOG h", "EOG v", "TRIGGER"]).getD 11 "" = "MEG " ++ pad3 12 ∧
    (_rename_channels ["A1", "A2", "A3", "A4", "A5", "A6", "A7", "A8", "A9", "A10",
      "A11", "A12", "EOG h", "EOG v", "TRIGGER"]).getD 14 "" = "STI 014" ∧
    (_rename_channels ["A1", "A2", "A3", "A4", "A5", "A6", "A7", "A8", "A9", "A10",
      "A11", "A12", "EOG h", "EOG v", "TRIGGER"]).getD 13 "" = "EOG 002" :=
  ⟨c8_rename_scenarios.1 _ 11 (by decide) (by decide),
   c8_rename_scenarios.2.1 _ 14 (by decide) (by decide),
   c8_rename_scenarios.2.2 _ 13 (by decide) (by decide) (by decide)⟩

/-- C9 counterexample: re-running the renaming function on an already-renamed
list is neither rejected nor detected — `"MEG 001"` is silently renamed again
to `"RFM 001"`. -/
theorem c9_rename_counterexample :
    _rename_channels ["MEG 001"] = ["RFM 001"] ∧ ("RFM 001" : String) ≠ "MEG 001" := by
  constructor <;> decide

/-- C9 (amended): `_rename_channels` contains no guard against already-renamed
input and is not idempotent: every name starting with `"M"` — which includes
every already-renamed `"MEG nnn"` channel — is renamed again to an
`"RFM nnn"` name numbered by the running reference-magnetometer counter, so
the function must only ever run once per file load. -/
theorem c9_rename_no_guard :
    ∀ ns k, k < ns.length → strStartsWith (ns.getD k "") "M" = true →
      (_rename_channels ns).getD k "" = "RFM " ++ pad3 ((ns.take k).countP mPred + 1) := by
  intro ns k hk hM
  rw [_rename_channels, renameLoop_getD ns k 1 0 0 0 0 hk]
  obtain ⟨t, hnd⟩ := strStartsWith_head (p := "M") rfl hM
  have hA : strStartsWith (ns.getD k "") "A" = false :=
    strStartsWith_false_of_head hnd rfl (by decide)
  have hE : strStartsWith (ns.getD k "") "EOG" = false :=
    strStartsWith_false_of_head hnd rfl (by decide)
  have hR : ns.getD k "" ≠ "RESPONSE" := ne_of_data_head hnd rfl (by decide)
  have hT : ns.getD k "" ≠ "TRIGGER" := ne_of_data_head hnd rfl (by decide)
  have hC : ns.getD k "" ≠ "ECG" := ne_of_data_head hnd rfl (by decide)
  have hU : ns.getD k "" ≠ "UACurrent" := ne_of_data_head hnd rfl (by decide)
  rw [renameOne, if_neg (by rw [hA]; decide), if_neg hR, if_neg hT,
    if_neg (by rw [hE]; decide), if_neg hC, if_neg hU, if_pos hM, Nat.zero_add]

/-- C9 witness: the already-renamed name `"MEG 001"` is renamed again on a
second pass, to `"RFM 001"`. -/
theorem c9_rename_no_guard_witness :
    (_rename_channels ["MEG 001"]).getD 0 "" = "RFM " ++ pad3 ((([] : List String)).countP mPred + 1) :=
  c9_rename_no_guard ["MEG 001"] 0 (by decide) (by decide)

/-- C2 counterexample: for a 108-byte file (`start = 100`) whose trailer
stores `header_position = 2000`, the computed header offset 2000 points far
outside the file, yet the function accepts it and raises no `FormatError`. -/
theorem c2_header_pos_counterexample :
    computeHeaderPos 100 2000 = .ok 2000 ∧ ¬(2000 : Int) ≤ 100 + 8 :=
  ⟨rfl, by decide⟩

/-- C2 (amended): the header decoder reads the signed 64-bit value 8 bytes
before end of file, masks it mod `2^31` (`& 0x7FFFFFFF`), applies the bound
check `start + 8 - masked ≤ 0x7FFFFFFF` and rounds the accepted offset up to
the next multiple of 8; but it never fails with a `FormatError`: an offset
pointing outside the file bounds is accepted unchecked, and when the bound
check fails the function crashes with an uninitialised-variable `NameError`
instead of raising `FormatError`. -/
theorem c2_header_pos_behaviour :
    ∀ start hp : Int,
      (computeHeaderPos start hp ≠ .error .formatError) ∧
      (start + 8 - hp % (2 ^ 31) ≤ FILE_MASK →
        ∃ v, computeHeaderPos start hp = .ok v ∧ v % 8 = 0 ∧
          hp % (2 ^ 31) ≤ v ∧ v < hp % (2 ^ 31) + 8) ∧
      (¬start + 8 - hp % (2 ^ 31) ≤ FILE_MASK →
        computeHeaderPos start hp = .error .crash) := by
  intro start hp
  simp only [computeHeaderPos, FILE_MASK, FILE_CURPOS]
  refine ⟨?_, ?_, ?_⟩
  · split
    · exact fun h => by injection h
    · exact fun h => by injection h with h; exact BtiError.noConfusion h
  · intro hb
    rw [if_pos (by omega)]
    refine ⟨_, rfl, ?_, ?_, ?_⟩ <;> split <;> omega
  · intro hb
    rw [if_neg (by omega)]

/-- C2 witness: at `start = 100`, `header_position = 16`, the bound check
passes and the masked, 8-byte-aligned offset 16 is accepted; at
`start = 2^31`, `header_position = 0`, the bound check fails and the
function crashes rather than raising `FormatError`. -/
theorem c2_header_pos_behaviour_witness :
    (∃ v, computeHeaderPos 100 16 = .ok v ∧ v % 8 = 0 ∧
      (16 : Int) % (2 ^ 31) ≤ v ∧ v < (16 : Int) % (2 ^ 31) + 8) ∧
    computeHeaderPos (2 ^ 31) 0 = .error .crash :=
  ⟨(c2_header_pos_behaviour 100 16).2.1 (by decide),
   (c2_header_pos_behaviour (2 ^ 31) 0).2.2 (by decide)⟩

/-- C4 counterexample: with the filter-name string absent (empty), the filter
band defaults to `(0, 600)` Hz, not `(0, 300)` Hz as claimed. -/
theorem c4_filter_band_counterexample :
    parseFilterBand "" = .ok (0, 600) ∧ ((0 : Rat), (600 : Rat)) ≠ ((0 : Rat), (300 : Rat)) :=
  ⟨rfl, by decide⟩

/-- C4 (amended): when the filter-name string is absent the band defaults to
`(0, 600)` Hz (not `(0, 300)`); a single parsable cutoff sets only the low
edge, keeping the high edge at 600; and when the string splits into two
comma-separated parsable cutoffs, those values become the band limits.  A
non-numeric string raises an error instead of falling back to a default. -/
theorem c4_filter_band :
    parseFilterBand "" = .ok (0, 600) ∧
    (∀ (s : String) (a : List Char) (l : Rat), splitOnComma s.data = [a] →
      parseFloatQ a = some l → parseFilterBand s = .ok (l, 600)) ∧
    (∀ (s : String) (a b : List Char) (l h : Rat), splitOnComma s.data = [a, b] →
      parseFloatQ a = some l → parseFloatQ b = some h →
      parseFilterBand s = .ok (l, h)) ∧
    (∀ (s : String) (a : List Char), s.data ≠ [] → splitOnComma s.data = [a] →
      parseFloatQ a = none → parseFilterBand s = .error .formatError) := by
  refine ⟨rfl, ?_, ?_, ?_⟩
  · intro s a l hsplit hl
    by_cases h0 : s.data = []
    · rw [h0] at hsplit
      have ha : a = [] := by injection hsplit with h1 _; exact h1.symm
      rw [ha] at hl
      rw [show parseFloatQ [] = none from rfl] at hl
      exact Option.noConfusion hl
    · simp only [parseFilterBand, if_neg h0, hsplit]
      rw [if_pos (by simp)]
      simp [hl]
  · intro s a b l h hsplit ha hb
    by_cases h0 : s.data = []
    · rw [h0] at hsplit
      have := congrArg List.length hsplit
      simp [splitOnComma] at this
    · simp only [parseFilterBand, if_neg h0, hsplit]
      rw [if_neg (by simp), if_pos (by simp)]
      simp [ha, hb]
  · intro s a h0 hsplit ha
    simp only [parseFilterBand, if_neg h0, hsplit]
    rw [if_pos (by simp)]
    simp [ha]

/-- C4 witness: the comma-separated filter name `"1,300"` yields the band
`(1, 300)`, and the single-cutoff name `"50"` yields `(50, 600)`. -/
theorem c4_filter_band_witness :
    parseFilterBand "1,300" = .ok (1, 300) ∧ parseFilterBand "50" = .ok (50, 600) :=
  ⟨c4_filter_band.2.2.1 "1,300" ['1'] ['3', '0', '0'] 1 300 (by decide) (by decide) (by decide),
   c4_filter_band.2.1 "50" ['5', '0'] 50 (by decide) (by decide)⟩

theorem read_double_matrix_length {s : ByteStream} {r c : Nat} {m : List (List Rat)}
    {s2 : ByteStream} (h : read_double_matrix s r c = .ok (m, s2)) : m.length = r := by
  simp only [read_double_matrix, bind, Except.bind] at h
  cases h1 : s.readBytes (r * c * 8) with
  | error e => rw [h1] at h; exact Except.noConfusion h
  | ok v =>
    rw [h1] at h
    obtain ⟨bs, s3⟩ := v
    simp only [Except.ok.injEq, Prod.mk.injEq] at h
    rw [← h.1]
    simp

theorem setupLoop_cons_lt3 (u : Bool) (n : Nat) (fid : List Int) (idx : Nat) (r : List Rat)
    (rest : List (List Rat)) (h : idx < 3) :
    setupLoop u n fid idx (r :: rest) =
      { kind := some .cardinal, ident := some (fid.getD idx 0), r := .vec r,
        coord_frame := FIFFV_COORD_HEAD } :: setupLoop u n fid (idx + 1) rest := by
  have h2 : ¬ 2 < idx := by omega
  have h4 : ¬ idx > 4 := by omega
  simp [setupLoop, h, h2, h4]

theorem setupLoop_no_cardinal (u : Bool) (n : Nat) (fid : List Int) :
    ∀ (pts : List (List Rat)) (idx : Nat), 3 ≤ idx →
      ∀ p ∈ setupLoop u n fid idx pts, p.kind ≠ some .cardinal := by
  intro pts
  induction pts with
  | nil => intro idx hi p hp; simp [setupLoop] at hp
  | cons r rest ih =>
    intro idx hi p hp
    have h3 : ¬ idx < 3 := by omega
    simp only [setupLoop, if_neg h3] at hp
    by_cases hskip : 2 < idx ∧ idx < n ∧ u = false
    · rw [if_pos hskip] at hp
      exact ih (idx + 1) (by omega) p hp
    · rw [if_neg hskip] at hp
      rcases List.mem_cons.mp hp with hp2 | hp2
      · subst hp2
        by_cases hhpi : 2 < idx ∧ idx < n ∧ u = true
        · rw [if_pos hhpi]; simp
        · rw [if_neg hhpi]
          by_cases hex : idx > 4
          · rw [if_pos hex]; simp
          · rw [if_neg hex]; simp
      · exact ih (idx + 1) (by omega) p hp2

/-- C10: for every head-shape file, `_read_head_shape` returns exactly
`BTI.DATA_N_IDX_POINTS = 5` index points — a fixed count, never the file's
stored index-point count field — and the digitization list built by
`setup_head_shape` begins with exactly 3 cardinal points whose identifiers
are 1, 2, 3 in order, for both values of `use_hpi` (no later point is
cardinal). -/
theorem c10_head_shape_fixed_points :
    (∀ (s : ByteStream) (ip dp : List (List Rat)),
      _read_head_shape s = .ok (ip, dp) → ip.length = 5) ∧
    (∀ (s : ByteStream) (useHpi : Bool) (dig : List DigPoint),
      setup_head_shape s useHpi = .ok dig →
      (dig.take 3).map (fun p => p.kind) =
        [some .cardinal, some .cardinal, some .cardinal] ∧
      (dig.take 3).map (fun p => p.ident) = [some 1, some 2, some 3] ∧
      ∀ p ∈ dig.drop 3, p.kind ≠ some PointKind.cardinal) := by
  have hread : ∀ (s : ByteStream) (ip dp : List (List Rat)),
      _read_head_shape s = .ok (ip, dp) → ip.length = 5 := by
    intro s ip dp h
    simp only [_read_head_shape, bind, Except.bind] at h
    cases h1 : read_int32 (ByteStream.seekAbs s FILE_HS_N_DIGPOINTS) with
    | error e => rw [h1] at h; exact Except.noConfusion h
    | ok v =>
      rw [h1] at h
      obtain ⟨nDig, s1⟩ := v
      dsimp only at h
      cases h2 : read_double_matrix s1 DATA_N_IDX_POINTS 3 with
      | error e => rw [h2] at h; exact Except.noConfusion h
      | ok w =>
        rw [h2] at h
        obtain ⟨ipts, s2⟩ := w
        dsimp only at h
        cases h3 : read_double_matrix s2 nDig.toNat 3 with
        | error e => rw [h3] at h; exact Except.noConfusion h
        | ok u =>
          rw [h3] at h
          obtain ⟨dpts, s3⟩ := u
          dsimp only at h
          simp only [Except.ok.injEq, Prod.mk.injEq] at h
          rw [← h.1]
          exact read_double_matrix_length h2
  refine ⟨hread, ?_⟩
  intro s useHpi dig h
  simp only [setup_head_shape, bind, Except.bind] at h
  cases h1 : _read_head_shape s with
  | error e => rw [h1] at h; exact Except.noConfusion h
  | ok v =>
    rw [h1] at h
    obtain ⟨ipts, dpts⟩ := v
    dsimp only at h
    simp only [Except.ok.injEq] at h
    have hlen : ipts.length = 5 := hread s ipts dpts h1
    obtain ⟨a, b, c, d, e, t, ht, hip⟩ :
        ∃ a b c d e t, t = [] ∧ ipts = a :: b :: c :: d :: e :: t := by
      match ipts, hlen with
      | [a, b, c, d, e], _ => exact ⟨a, b, c, d, e, [], rfl, rfl⟩
    subst ht
    rw [hip] at h
    rw [show ([a, b, c, d, e] : List (List Rat)).length = 5 from rfl] at h
    have hfid : pyRange 1 4 ++ pyRange 1 ((5 : Int) + 1 - 3) = [1, 2, 3, 1, 2] := by decide
    rw [show ((5 : Nat) : Int) + 1 - 3 = (5 : Int) + 1 - 3 from by norm_num, hfid] at h
    rw [show (a :: b :: c :: d :: e :: []) ++ dpts = a :: b :: c :: d :: e :: dpts from rfl] at h
    rw [setupLoop_cons_lt3 _ _ _ 0 _ _ (by omega),
      setupLoop_cons_lt3 _ _ _ 1 _ _ (by omega),
      setupLoop_cons_lt3 _ _ _ 2 _ _ (by omega)] at h
    rw [← h]
    refine ⟨by simp, by simp, ?_⟩
    simp only [List.drop_succ_cons, List.drop_zero]
    exact setupLoop_no_cardinal useHpi 5 [1, 2, 3, 1, 2] (d :: e :: dpts) 3 (by omega)

/-- C10 witness: on the concrete file `hsStreamC`, exactly 5 index points are
read and the digitization list starts with the 3 cardinal points 1, 2, 3. -/
theorem c10_head_shape_fixed_points_witness :
    ([hsRow, hsRow, hsRow, hsRow, hsRow].length = 5) ∧
    ((hsDigC.take 3).map (fun p => p.kind) =
      [some .cardinal, some .cardinal, some .cardinal]) ∧
    ((hsDigC.take 3).map (fun p => p.ident) = [some 1, some 2, some 3]) ∧
    (∀ p ∈ hsDigC.drop 3, p.kind ≠ some PointKind.cardinal) :=
  ⟨c10_head_shape_fixed_points.1 hsStreamC [hsRow, hsRow, hsRow, hsRow, hsRow] [hsRow] rfl,
   (c10_head_shape_fixed_points.2 hsStreamC true hsDigC rfl).1,
   (c10_head_shape_fixed_points.2 hsStreamC true hsDigC rfl).2.1,
   (c10_head_shape_fixed_points.2 hsStreamC true hsDigC rfl).2.2⟩

/-- C5 counterexample: with the head-shape file missing, `Raw.__init__`
raises an error instead of proceeding with an empty digitization list. -/
theorem c5_missing_head_shape_counterexample :
    loadDigStep false ⟨[], 0⟩ true = .error .formatError ∧
    loadDigStep false ⟨[], 0⟩ true ≠ .ok ([] : List DigPoint) :=
  ⟨rfl, fun h => Except.noConfusion (rfl.trans h)⟩

/-- C5 (amended): a missing head-shape file is fatal, not advisory: for every
head-shape stream and both values of `use_hpi`, `Raw.__init__` aborts with a
raised `ValueError` and never proceeds to build a digitization list. -/
theorem c5_missing_head_shape_fatal :
    ∀ (s : ByteStream) (useHpi : Bool),
      loadDigStep false s useHpi = .error .formatError := by
  intro s useHpi
  rfl

theorem map_getD_range {α : Type} (l : List α) (d : α) :
    (List.range l.length).map (fun i => l.getD i d) = l := by
  apply List.ext_getElem
  · simp
  · intro i h1 h2
    simp only [List.getElem_map, List.getElem_range]
    exact List.getD_eq_getElem l d h2

theorem getD_map_of_lt {α β : Type} (f : α → β) (l : List α) (j : Nat) (hj : j < l.length)
    (d : β) (a : α) : (l.map f).getD j d = f (l.getD j a) := by
  induction l generalizing j with
  | nil => simp at hj
  | cons x t ih =>
    cases j with
    | zero => rfl
    | succ j =>
      simp only [List.map_cons, List.getD_cons_succ]
      exact ih j (by simpa using hj)

theorem zipWith_setCal (g : DataChan → Rat) (l : List DataChan) :
    List.zipWith (fun c v => { c with cal := some v }) l (l.map g) =
      l.map (fun c => { c with cal := some (g c) }) := by
  induction l with
  | nil => rfl
  | cons a t ih => simp [ih]

theorem map_chanNo_transfer :
    ∀ (a : List DataChan) (b : List CfgChan), b.length = a.length →
      (transferChans a b).map (fun c => c.chan_no) = a.map (fun c => c.chan_no) := by
  intro a
  induction a with
  | nil => intro b _; rfl
  | cons x xs ih =>
    intro b hb
    cases b with
    | nil => simp at hb
    | cons y ys =>
      simp only [transferChans, List.zipWith_cons_cons, List.map_cons]
      congr 1
      exact ih ys (by simpa using hb)

theorem map_chanNo_setCal (g : DataChan → Rat) (l : List DataChan) :
    (l.map (fun c => { c with cal := some (g c) })).map (fun c => c.chan_no) =
      l.map (fun c => c.chan_no) := by
  rw [List.map_map]
  rfl

/-- C1: reconciliation keeps the PDF channel-number set exactly — every
channel number of the output appears among the PDF records and vice versa —
and whenever the config records are missing a channel number present in the
PDF records, reconciliation fails with the reader's `FormatError`
(`RuntimeError: Could not match raw data channels with config channels`)
instead of silently dropping channels. -/
theorem c1_reconcile_channel_set :
    (∀ (df : Int) (pdf : List DataChan) (cfg : List CfgChan) (rows : List (List Rat))
        (chs : List DataChan) (out : List (List Rat)),
      reconcile df pdf cfg rows = .ok (chs, out) →
      ∀ n : Int, n ∈ chs.map (fun c => c.chan_no) ↔ n ∈ pdf.map (fun c => c.chan_no)) ∧
    (∀ (df : Int) (pdf : List DataChan) (cfg : List CfgChan) (rows : List (List Rat))
        (n : Int), n ∈ pdf.map (fun c => c.chan_no) →
      n ∉ cfg.map (fun c => c.chan_no) →
      reconcile df pdf cfg rows = .error .formatError) := by
  constructor
  · intro df pdf cfg rows chs out h n
    simp only [reconcile] at h
    split at h
    case isFalse => exact Except.noConfusion h
    case isTrue hmatch =>
      simp only [Except.ok.injEq, Prod.mk.injEq] at h
      obtain ⟨hchs, -⟩ := h
      set chans := sortDataChans pdf with hchans
      set chansCfg := sortCfgChans (cfg.filter
        (fun c => (chans.map (fun x => x.chan_no)).contains c.chan_no)) with hcfgs
      set merged := transferChans chans chansCfg with hmerged
      have hlen : chansCfg.length = chans.length := by
        have := congrArg List.length hmatch
        simpa using this
      -- the output is a permutation of the calibrated channel list
      set withCal := List.zipWith (fun c v => { c with cal := some v }) merged
        (merged.map (calOf df)) with hwc
      have hperm1 : List.Perm (byNameOrder withCal) (List.range withCal.length) :=
        List.perm_insertionSort _ _
      have hperm2 : List.Perm chs withCal := by
        rw [← hchs]
        have h1 := hperm1.map (fun p => withCal.getD p defaultChan)
        rw [map_getD_range withCal defaultChan] at h1
        exact h1
      have hmm : withCal.map (fun c => c.chan_no) = chans.map (fun c => c.chan_no) := by
        rw [hwc, zipWith_setCal, map_chanNo_setCal]
        exact map_chanNo_transfer chans chansCfg hlen
      have hperm3 : List.Perm chans pdf := List.perm_insertionSort _ _
      rw [(hperm2.map (fun c => c.chan_no)).mem_iff, hmm,
        (hperm3.map (fun c => c.chan_no)).mem_iff]
  · intro df pdf cfg rows n hpdf hcfg
    simp only [reconcile]
    split
    case isFalse => rfl
    case isTrue hmatch =>
      exfalso
      apply hcfg
      set chans := sortDataChans pdf with hchans
      have hperm3 : List.Perm chans pdf := List.perm_insertionSort _ _
      have hn : n ∈ chans.map (fun c => c.chan_no) :=
        ((hperm3.map (fun c => c.chan_no)).mem_iff).mpr hpdf
      rw [← hmatch] at hn
      have hperm4 : List.Perm (sortCfgChans (cfg.filter
          (fun c => (chans.map (fun x => x.chan_no)).contains c.chan_no)))
          (cfg.filter (fun c => (chans.map (fun x => x.chan_no)).contains c.chan_no)) :=
        List.perm_insertionSort _ _
      rw [(hperm4.map (fun c => c.chan_no)).mem_iff] at hn
      obtain ⟨c, hcmem, hcn⟩ := List.mem_map.mp hn
      exact List.mem_map.mpr ⟨c, List.mem_of_mem_filter hcmem, hcn⟩

/-- C3 (amended): in the raw assembly step, EVERY channel row of the output —
MEG/reference and non-MEG alike — is the corresponding input row multiplied
elementwise by that channel's calibration factor, and by nothing else: no
fixed `1e-15` Tesla scale is applied anywhere in `_read_data`. -/
theorem c3_every_row_calibrated :
    ∀ (df : Int) (pdf : List DataChan) (cfg : List CfgChan) (rows : List (List Rat))
      (chs : List DataChan) (out : List (List Rat)),
      reconcile df pdf cfg rows = .ok (chs, out) →
      out.length = chs.length ∧
      ∀ j, j < out.length → ∃ i, i < pdf.length ∧
        out.getD j [] = (rows.getD i []).map
          (fun x => ((chs.getD j defaultChan).cal.getD 0) * x) := by
  intro df pdf cfg rows chs out h
  simp only [reconcile] at h
  split at h
  case isFalse => exact Except.noConfusion h
  case isTrue hmatch =>
    simp only [Except.ok.injEq, Prod.mk.injEq] at h
    obtain ⟨hchs, hout⟩ := h
    set chans := sortDataChans pdf with hchans
    set chansCfg := sortCfgChans (cfg.filter
      (fun c => (chans.map (fun x => x.chan_no)).contains c.chan_no)) with hcfgs
    set merged := transferChans chans chansCfg with hmerged
    set cal := merged.map (calOf df) with hcal
    set withCal := List.zipWith (fun c v => { c with cal := some v }) merged cal with hwc
    set byName := byNameOrder withCal with hbn
    have hlen : chansCfg.length = chans.length := by
      have := congrArg List.length hmatch
      simpa using this
    have hwceq : withCal = merged.map (fun c => { c with cal := some (calOf df c) }) := by
      rw [hwc, hcal]
      exact zipWith_setCal _ _
    have hmlen : merged.length = chans.length := by
      rw [hmerged]
      simp [transferChans, hlen]
    have hwlen : withCal.length = merged.length := by
      rw [hwceq]
      simp
    have hplen : chans.length = pdf.length := (List.perm_insertionSort _ _).length_eq
    have hbnperm : List.Perm byName (List.range withCal.length) := by
      rw [hbn, byNameOrder]
      exact List.perm_insertionSort _ _
    constructor
    · rw [← hchs, ← hout]
      simp
    · intro j hj
      rw [← hout] at hj
      have hjlen : j < byName.length := by simpa using hj
      have hmem : byName.getD j 0 ∈ byName := by
        rw [List.getD_eq_getElem byName 0 hjlen]
        exact List.getElem_mem hjlen
      have hiw : byName.getD j 0 < withCal.length :=
        List.mem_range.mp ((hbnperm.mem_iff).mp hmem)
      refine ⟨byName.getD j 0, by omega, ?_⟩
      rw [← hout, ← hchs]
      rw [getD_map_of_lt _ byName j hjlen [] 0, getD_map_of_lt _ byName j hjlen defaultChan 0]
      have h2 : (withCal.getD (byName.getD j 0) defaultChan).cal.getD 0
          = cal.getD (byName.getD j 0) 0 := by
        rw [hwceq, getD_map_of_lt _ merged _ (by omega) defaultChan defaultChan,
          hcal, getD_map_of_lt _ merged _ (by omega) 0 defaultChan]
        rfl
      rw [h2]

/-- Evaluation of the reconciliation pipeline on the concrete two-channel
input (data format 1, rows `[[1], [1]]`). -/
theorem reconcile_eval :
    reconcile 1 [chA1, chTrig] [cfgA1, cfgTrig] [[1], [1]] = .ok (chsC, outC) := by
  have hs1 : sortDataChans [chA1, chTrig] = [chA1, chTrig] := by
    norm_num [sortDataChans, List.insertionSort, List.orderedInsert, chA1, chTrig]
  have hfil : List.filter
      (fun c => (List.map (fun x => x.chan_no) [chA1, chTrig]).contains c.chan_no)
      [cfgA1, cfgTrig] = [cfgA1, cfgTrig] := by
    norm_num [List.filter, List.contains, chA1, chTrig, cfgA1, cfgTrig]
  have hs2 : sortCfgChans [cfgA1, cfgTrig] = [cfgA1, cfgTrig] := by
    norm_num [sortCfgChans, List.insertionSort, List.orderedInsert, cfgA1, cfgTrig]
  have hm : List.map (fun c => c.chan_no) [cfgA1, cfgTrig]
      = List.map (fun c => c.chan_no) [chA1, chTrig] := by
    norm_num [chA1, chTrig, cfgA1, cfgTrig]
  have htr : transferChans [chA1, chTrig] [cfgA1, cfgTrig] =
      [{ chan_label := "A1", chan_no := 1, scale := 1, upb := some 8, gain := some 4,
         name := some "A1", coil_trans := none, cal := none },
       { chan_label := "TRIGGER", chan_no := 2, scale := 1, upb := some 3, gain := some 1,
         name := some "TRIGGER", coil_trans := none, cal := none }] := by
    norm_num [transferChans, chA1, chTrig, cfgA1, cfgTrig]
  have hcal : List.map (calOf 1)
      [{ chan_label := "A1", chan_no := 1, scale := 1, upb := some 8, gain := some 4,
         name := some "A1", coil_trans := none, cal := none },
       { chan_label := "TRIGGER", chan_no := 2, scale := 1, upb := some 3, gain := some 1,
         name := some "TRIGGER", coil_trans := none, cal := none }] = [2, 3] := by
    norm_num [calOf]
  have hbn : byNameOrder chsC = [0, 1] := by decide
  simp only [reconcile, hs1, hfil, hs2, htr]
  rw [if_pos hm, hcal]
  have hzip : List.zipWith (fun (c : DataChan) (v : Rat) => { c with cal := some v })
      [{ chan_label := "A1", chan_no := 1, scale := 1, upb := some 8, gain := some 4,
         name := some "A1", coil_trans := none, cal := none },
       { chan_label := "TRIGGER", chan_no := 2, scale := 1, upb := some 3, gain := some 1,
         name := some "TRIGGER", coil_trans := none, cal := none }]
      [2, 3] = chsC := rfl
  rw [hzip, hbn]
  have h1 : List.map (fun p => chsC.getD p defaultChan) [0, 1] = chsC := rfl
  have h2 : List.map (fun p => List.map (fun x => ([2, 3] : List Rat).getD p 0 * x)
      ([[1], [1]].getD p [])) [0, 1] = outC := by
    norm_num [outC]
  rw [h1, h2]

/-- C1 witness: with both channels described in the config, the reconciled
channel numbers match the PDF ones; with config channel 2 missing,
reconciliation fails with `FormatError`. -/
theorem c1_reconcile_channel_set_witness :
    ((1 : Int) ∈ chsC.map (fun c => c.chan_no) ↔
      (1 : Int) ∈ ([chA1, chTrig] : List DataChan).map (fun c => c.chan_no)) ∧
    reconcile 1 [chA1, chTrig] [cfgA1] [[1], [1]] = .error .formatError :=
  ⟨c1_reconcile_channel_set.1 1 [chA1, chTrig] [cfgA1, cfgTrig] [[1], [1]] chsC outC
     reconcile_eval 1,
   c1_reconcile_channel_set.2 1 [chA1, chTrig] [cfgA1] [[1], [1]] 2 (by decide) (by decide)⟩

/-- C3 counterexample: at data format 1 with calibrations 2 (MEG channel
`A1`) and 3 (trigger channel), the assembled rows are `[[2], [3]]`: the MEG
row is NOT scaled by the claimed extra `1e-15` factor, and the trigger row
is ALSO multiplied by its calibration factor rather than left alone. -/
theorem c3_calibration_counterexample :
    Except.map Prod.snd (reconcile 1 [chA1, chTrig] [cfgA1, cfgTrig] [[1], [1]]) =
      .ok [[2], [3]] ∧
    ([[2], [3]] : List (List Rat)) ≠ [[2 * (1 / 1000000000000000)], [1]] :=
  ⟨by rw [reconcile_eval]; rfl, by intro h; simp at h⟩

/-- C3 witness: on the concrete two-channel input, the first output row is an
input row times the first output channel's calibration factor. -/
theorem c3_every_row_calibrated_witness :
    outC.length = chsC.length ∧
    (∃ i, i < ([chA1, chTrig] : List DataChan).length ∧
      outC.getD 0 [] = (([[1], [1]] : List (List Rat)).getD i []).map
        (fun x => ((chsC.getD 0 defaultChan).cal.getD 0) * x)) :=
  ⟨(c3_every_row_calibrated 1 [chA1, chTrig] [cfgA1, cfgTrig] [[1], [1]] chsC outC
      reconcile_eval).1,
   (c3_every_row_calibrated 1 [chA1, chTrig] [cfgA1, cfgTrig] [[1], [1]] chsC outC
      reconcile_eval).2 0 (by decide)⟩

theorem ratSqrt_25 : ratSqrt 25 = some 5 := by
  have h1 : natSqrtExact (25 : Rat).num.toNat = some 5 := by decide
  have h2 : natSqrtExact (25 : Rat).den = some 1 := by decide
  rw [ratSqrt, if_neg (by decide), h1, h2]
  norm_num

theorem ratSqrt_1 : ratSqrt 1 = some 1 := by
  have h1 : natSqrtExact (1 : Rat).num.toNat = some 1 := by decide
  have h2 : natSqrtExact (1 : Rat).den = some 1 := by decide
  rw [ratSqrt, if_neg (by decide), h1, h2]
  norm_num

theorem computeAlignment_eval :
    computeAlignment (1, 0, 0) (2, 0, 0) (0, 3, 4) = some (0, 1, 0) := by
  simp only [computeAlignment]
  norm_num
  rw [ratSqrt_25, ratSqrt_1]
  norm_num

/-- C6: evaluated at a concrete four-point digitization list (three cardinal
fiducials, one extra point), `convert_coord_frame` builds the expected
rotation transform but assigns the whole 6 × 3 concatenated matrix to the
FIRST dig point's position and leaves every other point untouched: the 2nd
point keeps `(2, 0, 0)` even though applying the computed transform to it
yields `(0, 2, 0)`. -/
theorem c6_convert_first_point_only :
    convert_coord_frame [d0C, d1C, d2C, d3C] =
      some (tC, [{ d0C with r := .mat allNmC }, d1C, d2C, d3C]) ∧
    applyRotTrans tC [2, 0, 0] = [0, 2, 0] ∧
    d1C.r = RVal.vec [2, 0, 0] ∧ RVal.vec [2, 0, 0] ≠ RVal.vec [0, 2, 0] := by
  have hfp : (([d0C, d1C, d2C, d3C].filterMap
      (fun d => if d.kind ≠ some PointKind.extra then some d.r else none)).mapM rvalVec) =
      some [((1 : Rat), (0 : Rat), (0 : Rat)), (2, 0, 0), (0, 3, 4)] := by decide
  refine ⟨?_, by norm_num [applyRotTrans, tC], rfl, by decide⟩
  rw [convert_coord_frame, hfp]
  dsimp only
  rw [computeAlignment_eval]
  dsimp only
  norm_num [buildT, fiducialsNm, digPointsNm, allNmC, tC, d0C]

theorem read_int16_ok (s : ByteStream) (h : s.pos + 2 ≤ s.data.length) :
    ∃ v, read_int16 s = .ok (v, ⟨s.data, s.pos + 2⟩) := by
  refine ⟨toSigned 16 (beNat ((s.data.drop s.pos).take 2)), ?_⟩
  simp [read_int16, ByteStream.readBytes, if_pos h, bind, Except.bind]

theorem readChanMapEntries_spec :
    ∀ (n : Nat) (s : ByteStream), s.pos + 18 * n ≤ s.data.length →
      ∃ chans s2, readChanMapEntries n s = .ok (chans, s2) ∧ chans.length = n ∧
        s2.pos = s.pos + 18 * n ∧ s2.data = s.data := by
  intro n
  induction n with
  | zero => exact fun s _ => ⟨[], s, rfl, rfl, by omega, rfl⟩
  | succ n ih =>
    intro s hs
    obtain ⟨v1, h1⟩ := read_int16_ok s (by omega)
    obtain ⟨v2, h2⟩ := read_int16_ok ⟨s.data, s.pos + 2⟩ (by simp; omega)
    obtain ⟨v3, h3⟩ := read_int16_ok ⟨s.data, s.pos + 4⟩ (by simp; omega)
    obtain ⟨v4, h4⟩ := read_int16_ok ⟨s.data, s.pos + 6⟩ (by simp; omega)
    obtain ⟨v5, h5⟩ := read_int16_ok ⟨s.data, s.pos + 8⟩ (by simp; omega)
    have hseek : ByteStream.seekRel ⟨s.data, s.pos + 10⟩ 8 = ⟨s.data, s.pos + 18⟩ := by
      simp [ByteStream.seekRel]
      omega
    obtain ⟨chans, s2, hrec, hlen, hpos, hdata⟩ :=
      ih ⟨s.data, s.pos + 18⟩ (by simp; omega)
    refine ⟨⟨v1, v2, v3, v4, v5⟩ :: chans, s2, ?_, by simp [hlen], by simp at hpos; omega,
      by simpa using hdata⟩
    simp only [readChanMapEntries, bind, Except.bind]
    rw [show s.pos + 2 + 2 = s.pos + 4 from rfl] at h2
    rw [show s.pos + 4 + 2 = s.pos + 6 from rfl] at h3
    rw [show s.pos + 6 + 2 = s.pos + 8 from rfl] at h4
    rw [show s.pos + 8 + 2 = s.pos + 10 from rfl] at h5
    rw [h1]
    dsimp only
    rw [h2]
    dsimp only
    rw [h3]
    dsimp only
    rw [h4]
    dsimp only
    rw [h5]
    dsimp only
    rw [hseek, hrec]

/-- C7: when the config decoder reaches a `B_WHChanMap` user block, it reads
exactly the number of channel-map entries declared by the `B_WHChanMapVer`
block already parsed into the block dictionary (consuming 18 bytes per
entry), and when no `B_WHChanMapVer` block has been parsed before it,
decoding fails with the reader's `FormatError` (`ValueError: Cannot find
block B_WHChanMapVer to determine number of channels`). -/
theorem c7_chan_map_dependency :
    (∀ (blocks : List (String × UserBlock)) (s : ByteStream) (p : String × UserBlock)
        (v sz e : Int),
      blocks.find? (fun q => q.1 = "B_WHChanMapVer") = some p →
      p.2.dta = .verBlock v sz e → 0 ≤ e →
      s.pos + 18 * e.toNat ≤ s.data.length →
      ∃ chans s2, parseChanMap blocks s = .ok (chans, s2) ∧
        chans.length = e.toNat ∧ s2.pos = s.pos + 18 * e.toNat) ∧
    (∀ (blocks : List (String × UserBlock)) (s : ByteStream),
      blocks.find? (fun q => q.1 = "B_WHChanMapVer") = none →
      parseChanMap blocks s = .error .formatError) := by
  constructor
  · intro blocks s p v sz e hfind hdta _ hroom
    obtain ⟨chans, s2, hrec, hlen, hpos, -⟩ := readChanMapEntries_spec e.toNat s hroom
    refine ⟨chans, s2, ?_, hlen, hpos⟩
    rw [parseChanMap, hfind]
    dsimp only
    rw [hdta]
    exact hrec
  · intro blocks s hfind
    rw [parseChanMap, hfind]

/-- C7 witness: with a version block declaring `entries = 3` in the
dictionary, the channel-map parse reads exactly 3 entries; with an empty
dictionary it fails with `FormatError`. -/
theorem c7_chan_map_dependency_witness :
    (∃ chans s2, parseChanMap blocksC cmStreamC = .ok (chans, s2) ∧
      chans.length = (3 : Int).toNat ∧ s2.pos = cmStreamC.pos + 18 * (3 : Int).toNat) ∧
    parseChanMap [] cmStreamC = .error .formatError :=
  ⟨c7_chan_map_dependency.1 blocksC cmStreamC ("B_WHChanMapVer", verBlockC) 1 10 3
      (by decide) rfl (by decide) (by decide),
   c7_chan_map_dependency.2 [] cmStreamC rfl⟩

/-- End-to-end check of the dependency wiring inside the user-block loop: on
the synthetic two-block stream the loop parses the version block first and
the dependent channel-map block then reads exactly 3 entries. -/
theorem readUserBlocks_scenario :
    readUserBlocks 2 [] cfgBlocksStreamC =
      .ok ([("B_WHChanMapVer", ⟨⟨0, 0, "", 0, 0, List.replicate 32 0⟩, .verBlock 1 10 3⟩),
            ("B_WHChanMap", ⟨⟨0, 0, "", 0, 0, List.replicate 32 0⟩,
              .chanMap [⟨0, 0, 0, 0, 0⟩, ⟨0, 0, 0, 0, 0⟩, ⟨0, 0, 0, 0, 0⟩]⟩)],
        ⟨cfgBlocksStreamC.data, 280⟩) := by
  decide

end Bti
